import Mathlib

/-!
Verification of the sensor-track management and intercept-guidance engine
(`src/ship.rs`, `src/tutorial.rs`).

Embedding conventions:
* `f64` kinematic quantities (positions, velocities, gate bounds, tick deltas)
  are modelled as exact rationals `ℚ` wherever the source only adds, subtracts,
  scales and compares them; quantities that pass through `sqrt` (vector
  lengths, the quadratic intercept solver) are modelled over `ℝ` with
  `Real.sqrt`.
* `u128` track ids and `u32` tick counters are modelled as `ℕ`.
* The `HashMap<u128, Rc<RefCell<RadarTrack>>>` of `Radar.potential_targets` is
  modelled as an insertion-ordered association list `List (ℕ × RadarTrack)`;
  the source's iteration order is unspecified, the list fixes one order.
  `Rc<RefCell<_>>` in-place mutation becomes functional update of the entry.
* A Rust `panic!` (from `Option::unwrap` on `None`) is modelled by an
  `Option` result, `none` standing for the panic, where the panic is the
  property under study (`Radar.get_track`, `Fighter.fighter_tick`); calls
  whose `Option` argument is syntactically `Some _` at every call site
  (`push_plot`, `add_detection_point`, `insert_new_potential_target`) take
  the payload directly, as noted at each definition.
* Host-environment calls (`scan()`, `current_tick()`, `position()`,
  `position_fixed()`, `velocity()`) are passed as explicit parameters; drawing
  and radar-actuation calls (`draw_*`, `set_radar_*`, `debug!`), which do not
  touch tracker state, are omitted.
-/

/-- 2-D vector with exact rational components (models `oort_api` `Vec2` in the
kinematic, sqrt-free parts of the code). -/
structure Vec2 where
  x : ℚ
  y : ℚ
deriving DecidableEq, Repr

instance : Add Vec2 := ⟨fun a b => ⟨a.x + b.x, a.y + b.y⟩⟩

instance : Sub Vec2 := ⟨fun a b => ⟨a.x - b.x, a.y - b.y⟩⟩

instance : Neg Vec2 := ⟨fun a => ⟨-a.x, -a.y⟩⟩

instance : HMul ℚ Vec2 Vec2 := ⟨fun c v => ⟨c * v.x, c * v.y⟩⟩

instance : HMul Vec2 ℚ Vec2 := ⟨fun v c => ⟨v.x * c, v.y * c⟩⟩

instance : HDiv Vec2 ℚ Vec2 := ⟨fun v c => ⟨v.x / c, v.y / c⟩⟩

@[simp] theorem Vec2.add_def (a b : Vec2) : a + b = ⟨a.x + b.x, a.y + b.y⟩ := rfl

@[simp] theorem Vec2.sub_def (a b : Vec2) : a - b = ⟨a.x - b.x, a.y - b.y⟩ := rfl

@[simp] theorem Vec2.div_def (v : Vec2) (c : ℚ) : v / c = ⟨v.x / c, v.y / c⟩ := rfl

@[simp] theorem Vec2.smul_def (v : Vec2) (c : ℚ) : v * c = ⟨v.x * c, v.y * c⟩ := rfl

/-- `Vec2::length()`: Euclidean norm, which needs `ℝ` (`sqrt`). -/
noncomputable def Vec2.length (v : Vec2) : ℝ :=
  Real.sqrt ((v.x * v.x + v.y * v.y : ℚ) : ℝ)

/-- `RadarTrackGate` (src/ship.rs): "defines a square field for a given
radartrack"; `center` and fixed side ("radius"). -/
structure RadarTrackGate where
  center : Vec2
  radius : ℚ
deriving DecidableEq, Repr

/-- `RadarTrackGate::new`. -/
def RadarTrackGate.new (point : Vec2) (radius : ℚ) : RadarTrackGate :=
  { center := point, radius := radius }

/-- `RadarTrackGate::update_center`. -/
def RadarTrackGate.update_center (g : RadarTrackGate) (center : Vec2) : RadarTrackGate :=
  { g with center := center }

/-- `RadarTrackGate::update_radius`. -/
def RadarTrackGate.update_radius (g : RadarTrackGate) (radius : ℚ) : RadarTrackGate :=
  { g with radius := radius }

/-- `RadarTrackGate::point_in_gate` (src/ship.rs lines 397-416): the four
corners `p1..p4` of the square, then four early-return rejection tests with
non-strict comparisons, `true` if none fires. -/
def RadarTrackGate.point_in_gate (g : RadarTrackGate) (point : Vec2) : Bool :=
  let p1 : Vec2 := ⟨g.center.x + g.radius / 2, g.center.y + g.radius / 2⟩
  let p2 : Vec2 := ⟨g.center.x - g.radius / 2, g.center.y + g.radius / 2⟩
  let p3 : Vec2 := ⟨g.center.x - g.radius / 2, g.center.y - g.radius / 2⟩
  let p4 : Vec2 := ⟨g.center.x + g.radius / 2, g.center.y - g.radius / 2⟩
  if point.x ≥ p1.x ∨ point.y ≥ p1.y then false
  else if point.x ≤ p2.x ∨ point.y ≥ p2.y then false
  else if point.x ≤ p3.x ∨ point.y ≤ p3.y then false
  else if point.x ≥ p4.x ∨ point.y ≤ p4.y then false
  else true

/-- C4: `point_in_gate` holds iff the point is strictly inside all four edges
of the axis-aligned square of side `radius` centered on `center`, and a point
lying exactly on any edge is classified outside, for every center, radius and
point. -/
theorem c4_point_in_gate (g : RadarTrackGate) (p : Vec2) :
    (g.point_in_gate p = true ↔
      (g.center.x - g.radius / 2 < p.x ∧ p.x < g.center.x + g.radius / 2 ∧
       g.center.y - g.radius / 2 < p.y ∧ p.y < g.center.y + g.radius / 2)) ∧
    ((p.x = g.center.x - g.radius / 2 ∨ p.x = g.center.x + g.radius / 2 ∨
      p.y = g.center.y - g.radius / 2 ∨ p.y = g.center.y + g.radius / 2) →
      g.point_in_gate p = false) := by
  have hmem : g.point_in_gate p = true ↔
      (g.center.x - g.radius / 2 < p.x ∧ p.x < g.center.x + g.radius / 2 ∧
       g.center.y - g.radius / 2 < p.y ∧ p.y < g.center.y + g.radius / 2) := by
    simp only [RadarTrackGate.point_in_gate]
    split_ifs with h1 h2 h3 h4
    · simp only [false_iff]
      intro hc
      obtain ⟨a1, a2, a3, a4⟩ := hc
      rcases h1 with h | h <;> linarith
    · simp only [false_iff]
      intro hc
      obtain ⟨a1, a2, a3, a4⟩ := hc
      rcases h2 with h | h <;> linarith
    · simp only [false_iff]
      intro hc
      obtain ⟨a1, a2, a3, a4⟩ := hc
      rcases h3 with h | h <;> linarith
    · simp only [false_iff]
      intro hc
      obtain ⟨a1, a2, a3, a4⟩ := hc
      rcases h4 with h | h <;> linarith
    · simp only [true_iff]
      push_neg at h1 h2 h3 h4
      exact ⟨h2.1, h1.1, h3.2, h1.2⟩
  refine ⟨hmem, fun hedge => ?_⟩
  cases hpg : g.point_in_gate p with
  | false => rfl
  | true =>
    exfalso
    obtain ⟨a1, a2, a3, a4⟩ := hmem.mp hpg
    rcases hedge with h | h | h | h <;> linarith

/-- Witness for C4 at a concrete gate and points: `(10, 10)` is strictly inside
the gate centered at the origin with radius `50`, and the boundary point
`(25, 0)` is outside. -/
theorem c4_point_in_gate_witness :
    (RadarTrackGate.new ⟨0, 0⟩ 50).point_in_gate ⟨10, 10⟩ = true ∧
    (RadarTrackGate.new ⟨0, 0⟩ 50).point_in_gate ⟨25, 0⟩ = false := by
  constructor
  · exact (c4_point_in_gate (RadarTrackGate.new ⟨0, 0⟩ 50) ⟨10, 10⟩).1.mpr (by norm_num [RadarTrackGate.new])
  · exact (c4_point_in_gate (RadarTrackGate.new ⟨0, 0⟩ 50) ⟨25, 0⟩).2 (by norm_num [RadarTrackGate.new])

/-- `oort_api` `ScanResult` as used by the code: only `position` and `velocity`
are ever read (the signal-quality metadata and class the API also carries are
never touched and are omitted). -/
structure ScanResult where
  position : Vec2
  velocity : Vec2
deriving DecidableEq, Repr

/-- `TimedScanResult` (src/ship.rs lines 171-175). -/
structure TimedScanResult where
  scan : ScanResult
  tick : ℕ
deriving DecidableEq, Repr

/-- `TrackType` (src/ship.rs lines 211-218). -/
inductive TrackType where
  | Tentative
  | Friend
  | Foe
  | Missile
deriving DecidableEq, Repr

/-- `Kalman` (src/ship.rs lines 267-273): a fieldless stub in the source. -/
structure Kalman where
deriving DecidableEq, Repr

/-- `RadarTrack` (src/ship.rs lines 180-208).  The source also stores a
`heading: f64` field, written once at creation from `velocity.y.atan2(velocity.x)`
and never read anywhere afterwards; this dead, transcendental-valued field is
omitted so the tracker stays decidably computable.  The source field `class`
is renamed `classification` (`class` is a Lean keyword). -/
structure RadarTrack where
  scans : List TimedScanResult
  position : Vec2
  velocity : Vec2
  id : ℕ
  classification : TrackType
  gate : RadarTrackGate
  contact_tick : ℕ
  filter : Kalman
deriving DecidableEq, Repr

/-- `RadarTrack::push_plot` (src/ship.rs lines 296-298): `VecDeque::push_back`.
The source takes `Option<TimedScanResult>` and unwraps it; its only call site
(src/ship.rs line 623) passes `Some(..)`, so the model takes the payload. -/
def RadarTrack.push_plot (t : RadarTrack) (plot : TimedScanResult) : RadarTrack :=
  { t with scans := t.scans ++ [plot] }

/-- `RadarTrack::update` (src/ship.rs lines 300-353), the live code after the
commented-out Kalman pseudocode: coast when no scan is queued; with exactly one
queued scan, pop it and apply the one-step differencing smoother; with more
than one queued scan, do nothing (the source's empty `else` arm); finally
recenter the gate on the (possibly new) position unconditionally. -/
def RadarTrack.update (t : RadarTrack) : RadarTrack :=
  let t1 :=
    if t.scans.isEmpty then
      -- no new scans in queue, just update one tick of velocity
      { t with position := t.position + t.velocity / (60 : ℚ) }
    else if t.scans.length = 1 then
      match t.scans with
      | scan :: rest =>
        let current_velocity_in_ticks := t.velocity / (60 : ℚ)
        let acceleration := (current_velocity_in_ticks - scan.scan.velocity / (60 : ℚ)) / (2 : ℚ)
        let new_velocity := (current_velocity_in_ticks + acceleration) * (60 : ℚ)
        { t with scans := rest, velocity := new_velocity,
                 position := t.position + acceleration }
      | [] => t
    else
      t
  { t1 with gate := t1.gate.update_center t1.position }

/-- `RadarTrack::check_gate` (src/ship.rs lines 355-357). -/
def RadarTrack.check_gate (t : RadarTrack) (point : Vec2) : Bool :=
  t.gate.point_in_gate point

/-- `RadarTrack::distance_from` (src/ship.rs lines 359-361). -/
noncomputable def RadarTrack.distance_from (t : RadarTrack) (point : Vec2) : ℝ :=
  (t.position - point).length

/-- C6: the per-track update rule.  With no queued plot the track coasts —
new position is old position plus old velocity divided by 60 and the velocity
is unchanged; with exactly one queued plot, `acceleration` is
`(velocity/60 - plot_velocity/60) / 2`, the new velocity is
`(velocity/60 + acceleration) * 60`, and `acceleration` is added to the
position. -/
theorem c6_update_rule (t : RadarTrack) :
    (t.scans = [] →
      t.update.position = t.position + t.velocity / (60 : ℚ) ∧
      t.update.velocity = t.velocity) ∧
    (∀ s : TimedScanResult, t.scans = [s] →
      t.update.velocity =
        (t.velocity / (60 : ℚ) + (t.velocity / (60 : ℚ) - s.scan.velocity / (60 : ℚ)) / (2 : ℚ)) * (60 : ℚ) ∧
      t.update.position =
        t.position + (t.velocity / (60 : ℚ) - s.scan.velocity / (60 : ℚ)) / (2 : ℚ)) := by
  constructor
  · intro hs
    simp [RadarTrack.update, hs]
  · intro s hs
    simp [RadarTrack.update, hs]

/-- Witness for C6 at a concrete track: coasting from position `(3, 4)` with
velocity `(60, 120)` yields position `(4, 6)`, and consuming the single queued
plot of velocity `(0, 0)` from velocity `(60, 0)` yields velocity `(90, 0)`
and position `(3.5, 4)`. -/
theorem c6_update_rule_witness :
    ({ scans := [], position := ⟨3, 4⟩, velocity := ⟨60, 120⟩, id := 0,
       classification := TrackType.Tentative, gate := RadarTrackGate.new ⟨3, 4⟩ 50,
       contact_tick := 0, filter := {} } : RadarTrack).update.position = ⟨4, 6⟩ ∧
    ({ scans := [{ scan := { position := ⟨9, 9⟩, velocity := ⟨0, 0⟩ }, tick := 7 }],
       position := ⟨3, 4⟩, velocity := ⟨60, 0⟩, id := 0,
       classification := TrackType.Tentative, gate := RadarTrackGate.new ⟨3, 4⟩ 50,
       contact_tick := 0, filter := {} } : RadarTrack).update.velocity = ⟨90, 0⟩ := by
  constructor
  · have h := (c6_update_rule
      { scans := [], position := ⟨3, 4⟩, velocity := ⟨60, 120⟩, id := 0,
        classification := TrackType.Tentative, gate := RadarTrackGate.new ⟨3, 4⟩ 50,
        contact_tick := 0, filter := {} }).1 rfl
    rw [h.1]
    norm_num
  · have h := ((c6_update_rule
      { scans := [{ scan := { position := ⟨9, 9⟩, velocity := ⟨0, 0⟩ }, tick := 7 }],
        position := ⟨3, 4⟩, velocity := ⟨60, 0⟩, id := 0,
        classification := TrackType.Tentative, gate := RadarTrackGate.new ⟨3, 4⟩ 50,
        contact_tick := 0, filter := {} }).2
      { scan := { position := ⟨9, 9⟩, velocity := ⟨0, 0⟩ }, tick := 7 } rfl)
    rw [h.1]
    norm_num

/-- `ShipState` (src/ship.rs lines 156-162). -/
inductive ShipState where
  | NoTarget
  | Searching
  | Engaged
  | OutOfTargetRange
  | OutOfRadarRange
deriving DecidableEq, Repr

/-- `RadarState` (src/ship.rs lines 446-451). -/
inductive RadarState where
  | ShortRange
  | MediumRange
  | LongRange
  | TargetFocus
deriving DecidableEq, Repr

/-- `RadarBeam` (src/ship.rs lines 453-458). -/
inductive RadarBeam where
  | Focused
  | Narrow
  | Standard
  | Wide
deriving DecidableEq, Repr

/-- `BULLET_SPEED` (src/ship.rs line 28). -/
def BULLET_SPEED : ℝ := 1000

/-- `STICKY_TARGET_TICKS` (src/ship.rs line 30). -/
def STICKY_TARGET_TICKS : ℕ := 1

/-- `MISSILE_STICKY_TARGET_TICKS` (src/ship.rs line 31). -/
def MISSILE_STICKY_TARGET_TICKS : ℕ := 60

/-- `Radar` (src/ship.rs lines 460-477); `potential_targets` is the
`HashMap<u128, Rc<RefCell<RadarTrack>>>`, modelled as an insertion-ordered
association list. -/
structure Radar where
  name : String
  beam : RadarBeam
  state : RadarState
  ticks_since_contact : ℕ
  designated_target : Option ℕ
  potential_targets : List (ℕ × RadarTrack)
  id_gen : ℕ
deriving DecidableEq, Repr

/-- The ids of the tracks currently held by the tracker (the map's key set). -/
def Radar.trackIds (r : Radar) : List ℕ :=
  r.potential_targets.map Prod.fst

/-- `Radar::new_id_gen` (src/ship.rs lines 536-541): returns the current
counter and the radar with the counter incremented. -/
def Radar.new_id_gen (r : Radar) : ℕ × Radar :=
  (r.id_gen, { r with id_gen := r.id_gen + 1 })

/-- `Radar::still_tracking` (src/ship.rs lines 543-545): `contains_key`. -/
def Radar.still_tracking (r : Radar) (id : ℕ) : Bool :=
  r.trackIds.contains id

/-- `Radar::has_contacts` (src/ship.rs lines 547-549). -/
def Radar.has_contacts (r : Radar) : Bool :=
  !r.potential_targets.isEmpty

/-- `Radar::get_track` (src/ship.rs lines 598-600):
`Rc::clone(&self.potential_targets.get(&id).unwrap())`.  The `unwrap` panics
when `id` is absent; the panic is modelled by the `none` result. -/
def Radar.get_track (r : Radar) (id : ℕ) : Option RadarTrack :=
  r.potential_targets.lookup id

/-- `Radar::insert_new_potential_target` (src/ship.rs lines 551-569).  The
source takes `Option<ScanResult>` and unwraps it; both call sites
(src/ship.rs lines 607 and 652) pass the plot that was just matched against,
so the model takes the payload.  `current_tick()` is the `curTick` parameter.
HashMap insertion becomes appending the fresh-id entry. -/
def Radar.insert_new_potential_target (r : Radar) (plot : ScanResult) (curTick : ℕ) : Radar :=
  let scans : List TimedScanResult := [{ tick := curTick, scan := plot }]
  let (id, r1) := r.new_id_gen
  let track : RadarTrack :=
    { scans := scans
      position := plot.position
      velocity := plot.velocity
      id := id
      classification := TrackType.Tentative
      gate := RadarTrackGate.new plot.position 50
      contact_tick := curTick
      filter := {} }
  { r1 with potential_targets := r1.potential_targets ++ [(id, track)] }

/-- `Radar::update_tracks` (src/ship.rs lines 577-582): call `update` on every
track. -/
def Radar.update_tracks (r : Radar) : Radar :=
  { r with potential_targets :=
      r.potential_targets.map (fun it => (it.1, it.2.update)) }

/-- The association `for`-loop of `Radar::add_detection_point`
(src/ship.rs lines 609-637), written as a recursion over the track list.
Arguments mirror the loop state: `found` is the `found` flag at loop entry.
Returns the (in-place mutated) track list, the collected `old_tracks` ids, and
the final `found` flag.  The loop `break`s at the top of the iteration after a
match, leaving the remaining tracks untouched; a non-matching track is pushed
onto `old_tracks` iff `current_tick - contact_tick >= 30`. -/
def detection_loop (plot : ScanResult) (curTick : ℕ) :
    List (ℕ × RadarTrack) → Bool → List (ℕ × RadarTrack) × List ℕ × Bool
  | [], found => ([], [], found)
  | (id, t) :: rest, found =>
    if found then ((id, t) :: rest, [], found)
    else if t.check_gate plot.position then
      let t2 := (t.push_plot { tick := curTick, scan := plot }).update
      let (rest2, old, f2) := detection_loop plot curTick rest true
      ((id, t2) :: rest2, old, f2)
    else
      let (rest2, old, f2) := detection_loop plot curTick rest found
      let old2 := if 30 ≤ curTick - t.contact_tick then id :: old else old
      ((id, t) :: rest2, old2, f2)

/-- `Radar::add_detection_point` (src/ship.rs lines 602-655).  The source takes
`Option<ScanResult>` and unwraps it; the only call site (src/ship.rs line 531)
passes `Some(plot)`, so the model takes the payload.  After the association
loop the collected stale ids are removed from the map, and an unclaimed plot
spawns a new track. -/
def Radar.add_detection_point (r : Radar) (plot : ScanResult) (curTick : ℕ) : Radar :=
  if r.potential_targets.isEmpty then
    -- first result, no values to compare with
    r.insert_new_potential_target plot curTick
  else
    let (tracks1, old_tracks, found) := detection_loop plot curTick r.potential_targets false
    let tracks2 := tracks1.filter (fun it => !old_tracks.contains it.1)
    let r2 := { r with potential_targets := tracks2 }
    if found then r2 else r2.insert_new_potential_target plot curTick

/-- The per-tick tracker effect of `Radar::radar_loop` (src/ship.rs lines
518-533): `update_tracks` first, then `add_detection_point` when `scan()`
returned a plot.  `show_tracks`, `set_beam_width` and the sweep dispatch only
issue drawing / radar-aiming host calls and do not touch tracker state, so
they have no effect on this model. -/
def Radar.radar_loop (r : Radar) (curTick : ℕ) (plot : Option ScanResult) : Radar :=
  let r1 := r.update_tracks
  match plot with
  | some p => r1.add_detection_point p curTick
  | none => r1

/-- The host driving the radar for consecutive ticks starting at `curTick`,
feeding it one optional plot per tick (the host guarantees at most one plot
per tick). -/
def Radar.radar_run (r : Radar) (curTick : ℕ) : List (Option ScanResult) → Radar
  | [] => r
  | p :: ps => (r.radar_loop curTick p).radar_run (curTick + 1) ps

/-- The fighter's radar as built by `Fighter::new` (src/ship.rs lines 899-907). -/
def fighterRadar : Radar :=
  { name := "fighter_radar"
    beam := RadarBeam.Standard
    state := RadarState.MediumRange
    ticks_since_contact := 0
    designated_target := none
    potential_targets := []
    id_gen := 0 }

/-- Helper: `List.lookup` finds `none` exactly when the key is not among the
mapped first components. -/
theorem lookup_eq_none_iff (l : List (ℕ × RadarTrack)) (id : ℕ) :
    l.lookup id = none ↔ id ∉ l.map Prod.fst := by
  induction l with
  | nil => simp [List.lookup]
  | cons hd tl ih =>
    by_cases h : id = hd.1
    · simp [List.lookup, h]
    · have hb : (id == hd.1) = false := beq_eq_false_iff_ne.mpr h
      simp [List.lookup, hb, ih, h]

/-- Counterexample to C2: querying the empty fighter tracker for id `0`
reaches the `unwrap` on `None` in `get_track` — the modelled panic (`none`),
which aborts the process.  No recoverable `LookupFailure` value is returned to
the caller, contradicting "the failure is never fatal to the process". -/
theorem c2_get_track_counterexample :
    fighterRadar.get_track 0 = none := by
  rfl

/-- C2 amended: for every id not present in the tracker's map, `get_track`
panics (it unwraps `None`); the lookup failure is fatal unless the caller
pre-checks, and the guard the code provides for that purpose is
`still_tracking` (`contains_key`), used by `Missile::tick` before calling
`get_track`. -/
theorem c2_get_track_amended (r : Radar) (id : ℕ) :
    (r.get_track id = none ↔ id ∉ r.trackIds) ∧
    (r.still_tracking id = true ↔ id ∈ r.trackIds) := by
  constructor
  · exact lookup_eq_none_iff r.potential_targets id
  · exact List.elem_iff

/-- Witness for C2 amended at a concrete tracker: in the empty fighter radar,
id `3` is unknown, so `get_track` panics and `still_tracking` reports
`false`. -/
theorem c2_get_track_amended_witness :
    fighterRadar.get_track 3 = none ∧ fighterRadar.still_tracking 3 = false := by
  have h := c2_get_track_amended fighterRadar 3
  constructor
  · exact h.1.mpr (by decide)
  · cases hst : fighterRadar.still_tracking 3 with
    | false => rfl
    | true => exact absurd (h.2.mp hst) (by decide)

/-- Queued-scan preservation: `update` never changes `contact_tick`. -/
theorem update_contact_tick (t : RadarTrack) : t.update.contact_tick = t.contact_tick := by
  unfold RadarTrack.update
  split_ifs with h1 h2
  · rfl
  · cases hs : t.scans with
    | nil => simp [hs]
    | cons a l => simp [hs]
  · rfl

/-- `push_plot` never changes `contact_tick`. -/
theorem push_plot_contact_tick (t : RadarTrack) (s : TimedScanResult) :
    (t.push_plot s).contact_tick = t.contact_tick := rfl

/-- A track whose queue holds at most one scan has an empty queue after
`update` (the coast branch leaves an already-empty queue, the one-scan branch
pops it). -/
theorem update_scans_nil (t : RadarTrack) (h : t.scans.length ≤ 1) :
    t.update.scans = [] := by
  unfold RadarTrack.update
  cases hs : t.scans with
  | nil => simp [hs]
  | cons a l =>
    cases l with
    | nil => simp [hs]
    | cons b l2 => rw [hs] at h; simp at h

/-- With the `found` flag already set, the association loop `break`s at once
and leaves the track list untouched. -/
theorem detection_loop_found (plot : ScanResult) (ct : ℕ) (l : List (ℕ × RadarTrack)) :
    detection_loop plot ct l true = (l, [], true) := by
  cases l with
  | nil => rfl
  | cons hd tl => cases hd; simp [detection_loop]

/-- The association loop never adds or removes entries: the id column of its
output list is that of its input. -/
theorem detection_loop_ids (plot : ScanResult) (ct : ℕ) (l : List (ℕ × RadarTrack)) (f : Bool) :
    (detection_loop plot ct l f).1.map Prod.fst = l.map Prod.fst := by
  induction l generalizing f with
  | nil => cases f <;> rfl
  | cons hd tl ih =>
    obtain ⟨id, t⟩ := hd
    cases f with
    | true => rw [detection_loop_found]
    | false =>
      by_cases hg : t.check_gate plot.position
      · simp [detection_loop, hg, ih]
      · simp only [detection_loop, Bool.false_eq_true, if_false, hg, ite_false]
        simp [ih]

/-- Every id the association loop collects into `old_tracks` belongs to a
track of the input list whose `current_tick - contact_tick` is at least 30. -/
theorem detection_loop_old_mem (plot : ScanResult) (ct : ℕ)
    (l : List (ℕ × RadarTrack)) (f : Bool) (i : ℕ)
    (hi : i ∈ (detection_loop plot ct l f).2.1) :
    ∃ u, (i, u) ∈ l ∧ 30 ≤ ct - u.contact_tick := by
  induction l generalizing f with
  | nil => cases f <;> simp [detection_loop] at hi
  | cons hd tl ih =>
    obtain ⟨id, t⟩ := hd
    cases f with
    | true => rw [detection_loop_found] at hi; simp at hi
    | false =>
      by_cases hg : t.check_gate plot.position
      · simp only [detection_loop, Bool.false_eq_true, if_false, hg, ite_true] at hi
        obtain ⟨u, hu, hd30⟩ := ih true hi
        exact ⟨u, List.mem_cons_of_mem _ hu, hd30⟩
      · simp only [detection_loop, Bool.false_eq_true, if_false, hg, ite_false] at hi
        split_ifs at hi with h30
        · rcases List.mem_cons.mp hi with h | h
          · exact ⟨t, by rw [h]; exact List.mem_cons_self _ _, h30⟩
          · obtain ⟨u, hu, hd30⟩ := ih false h
            exact ⟨u, List.mem_cons_of_mem _ hu, hd30⟩
        · obtain ⟨u, hu, hd30⟩ := ih false hi
          exact ⟨u, List.mem_cons_of_mem _ hu, hd30⟩

/-- Every input entry of the association loop survives in the output list,
either untouched or (for the claiming track) with the plot pushed and a
second `update` applied. -/
theorem detection_loop_entry (plot : ScanResult) (ct : ℕ)
    (l : List (ℕ × RadarTrack)) (f : Bool) (i : ℕ) (t : RadarTrack)
    (hit : (i, t) ∈ l) :
    (i, t) ∈ (detection_loop plot ct l f).1 ∨
    (i, (t.push_plot { tick := ct, scan := plot }).update) ∈ (detection_loop plot ct l f).1 := by
  induction l generalizing f with
  | nil => simp at hit
  | cons hd tl ih =>
    obtain ⟨id, u⟩ := hd
    cases f with
    | true =>
      rw [detection_loop_found]
      exact Or.inl hit
    | false =>
      rcases List.mem_cons.mp hit with h | h
      · by_cases hg : u.check_gate plot.position
        · simp only [detection_loop, Bool.false_eq_true, if_false, hg, ite_true]
          rw [Prod.mk.injEq] at h
          obtain ⟨h1, h2⟩ := h
          right
          rw [h1, h2]
          exact List.mem_cons_self _ _
        · simp only [detection_loop, Bool.false_eq_true, if_false, hg, ite_false]
          exact Or.inl (h ▸ List.mem_cons_self _ _)
      · by_cases hg : u.check_gate plot.position
        · simp only [detection_loop, Bool.false_eq_true, if_false, hg, ite_true]
          rcases ih true h with h2 | h2
          · exact Or.inl (List.mem_cons_of_mem _ h2)
          · exact Or.inr (List.mem_cons_of_mem _ h2)
        · simp only [detection_loop, Bool.false_eq_true, if_false, hg, ite_false]
          rcases ih false h with h2 | h2
          · exact Or.inl (List.mem_cons_of_mem _ h2)
          · exact Or.inr (List.mem_cons_of_mem _ h2)

/-- When no track's gate contains the plot, the association loop visits every
track, leaves all of them untouched, collects exactly the ids whose
`current_tick - contact_tick` has reached 30, and reports no match. -/
theorem detection_loop_nomatch (plot : ScanResult) (ct : ℕ)
    (l : List (ℕ × RadarTrack))
    (hnm : ∀ p ∈ l, p.2.check_gate plot.position = false) :
    detection_loop plot ct l false =
      (l, (l.filter (fun it => decide (30 ≤ ct - it.2.contact_tick))).map Prod.fst, false) := by
  induction l with
  | nil => rfl
  | cons hd tl ih =>
    obtain ⟨id, t⟩ := hd
    have hg : t.check_gate plot.position = false := hnm (id, t) (List.mem_cons_self _ _)
    have htl : ∀ p ∈ tl, p.2.check_gate plot.position = false :=
      fun p hp => hnm p (List.mem_cons_of_mem _ hp)
    simp only [detection_loop, Bool.false_eq_true, if_false, hg, ite_false, ih htl]
    by_cases h30 : 30 ≤ ct - t.contact_tick
    · simp [List.filter, h30]
    · simp [List.filter, h30]

/-- When the tracks before position `k` all fail the gate test and the track
at position `k` passes it, the association loop pushes the plot onto that
track, updates it a second time, `break`s, and collects exactly the stale ids
among the tracks before `k`. -/
theorem detection_loop_first_match (plot : ScanResult) (ct : ℕ)
    (l1 : List (ℕ × RadarTrack)) (id : ℕ) (t : RadarTrack) (l2 : List (ℕ × RadarTrack))
    (h1 : ∀ p ∈ l1, p.2.check_gate plot.position = false)
    (ht : t.check_gate plot.position = true) :
    detection_loop plot ct (l1 ++ (id, t) :: l2) false =
      (l1 ++ (id, (t.push_plot { tick := ct, scan := plot }).update) :: l2,
       (l1.filter (fun it => decide (30 ≤ ct - it.2.contact_tick))).map Prod.fst,
       true) := by
  induction l1 with
  | nil =>
    simp only [List.nil_append, detection_loop, Bool.false_eq_true, if_false, ht, ite_true,
      detection_loop_found, List.filter_nil, List.map_nil]
  | cons hd tl ih =>
    obtain ⟨i, u⟩ := hd
    have hg : u.check_gate plot.position = false := h1 (i, u) (List.mem_cons_self _ _)
    have htl : ∀ p ∈ tl, p.2.check_gate plot.position = false :=
      fun p hp => h1 p (List.mem_cons_of_mem _ hp)
    simp only [List.cons_append, detection_loop, Bool.false_eq_true, if_false, hg, ite_false,
      ih htl]
    by_cases h30 : 30 ≤ ct - u.contact_tick
    · simp [List.filter, h30, ih htl]
    · simp [List.filter, h30, ih htl]

/-- If every track enters the association loop with an empty queue, every
track leaves it with an empty queue (the claiming track's pushed plot is
consumed by the immediate second `update`). -/
theorem detection_loop_scans_nil (plot : ScanResult) (ct : ℕ)
    (l : List (ℕ × RadarTrack)) (f : Bool)
    (h : ∀ p ∈ l, p.2.scans = []) :
    ∀ p ∈ (detection_loop plot ct l f).1, p.2.scans = [] := by
  induction l generalizing f with
  | nil => cases f <;> simp [detection_loop]
  | cons hd tl ih =>
    obtain ⟨id, t⟩ := hd
    have hhd : t.scans = [] := h (id, t) (List.mem_cons_self _ _)
    have htl : ∀ p ∈ tl, p.2.scans = [] := fun p hp => h p (List.mem_cons_of_mem _ hp)
    cases f with
    | true =>
      rw [detection_loop_found]
      exact h
    | false =>
      by_cases hg : t.check_gate plot.position
      · simp only [detection_loop, Bool.false_eq_true, if_false, hg, ite_true]
        intro p hp
        rcases List.mem_cons.mp hp with hp | hp
        · rw [hp]
          refine update_scans_nil _ ?_
          simp [RadarTrack.push_plot, hhd]
        · exact ih true htl p hp
      · simp only [detection_loop, Bool.false_eq_true, if_false, hg, ite_false]
        intro p hp
        rcases List.mem_cons.mp hp with hp | hp
        · rw [hp]; exact hhd
        · exact ih false htl p hp

/-- Invariant of C10: every track's pending-plot queue holds at most one
element. -/
def QueuesBounded (r : Radar) : Prop :=
  ∀ p ∈ r.potential_targets, p.2.scans.length ≤ 1

instance (r : Radar) : Decidable (QueuesBounded r) :=
  List.decidableBAll _ _

/-- After `update_tracks`, every queue is empty, provided every queue held at
most one scan before. -/
theorem update_tracks_scans_nil (r : Radar) (hb : QueuesBounded r) :
    ∀ p ∈ r.update_tracks.potential_targets, p.2.scans = [] := by
  intro p hp
  simp only [Radar.update_tracks, List.mem_map] at hp
  obtain ⟨q, hq, rfl⟩ := hp
  exact update_scans_nil _ (hb q hq)

/-- C10: the queue-boundedness invariant is preserved by every radar tick;
a new track is created with exactly one queued scan; an update with exactly
one queued scan pops it; a claimed plot pushed onto an empty queue is consumed
by the immediate update.  Hence at every tick boundary each queue holds at
most one element and the more-than-one-plot branch of `update` is never
entered. -/
theorem c10_queue_bound :
    (∀ (r : Radar) (ct : ℕ) (plot : Option ScanResult),
        QueuesBounded r → QueuesBounded (r.radar_loop ct plot)) ∧
    (∀ (r : Radar) (p : ScanResult) (ct : ℕ),
        ∃ tr : RadarTrack,
          (r.insert_new_potential_target p ct).potential_targets =
            r.potential_targets ++ [(r.id_gen, tr)] ∧ tr.scans.length = 1) ∧
    (∀ (t : RadarTrack) (s : TimedScanResult), t.scans = [s] → t.update.scans = []) ∧
    (∀ (t : RadarTrack) (s : TimedScanResult), t.scans = [] →
        ((t.push_plot s).update).scans = []) := by
  refine ⟨?_, ?_, ?_, ?_⟩
  · intro r ct plot hb
    have hnil : ∀ p ∈ r.update_tracks.potential_targets, p.2.scans = [] :=
      update_tracks_scans_nil r hb
    cases plot with
    | none =>
      intro p hp
      rw [show r.radar_loop ct none = r.update_tracks from rfl] at hp
      rw [hnil p hp]
      simp
    | some pl =>
      intro p hp
      simp only [Radar.radar_loop, Radar.add_detection_point] at hp
      by_cases hemp : r.update_tracks.potential_targets.isEmpty
      · rw [if_pos hemp] at hp
        simp only [Radar.insert_new_potential_target, Radar.new_id_gen,
          List.mem_append, List.mem_singleton] at hp
        rcases hp with hp | hp
        · rw [hnil p hp]; simp
        · rw [hp]; simp
      · rw [if_neg hemp] at hp
        split_ifs at hp with hfound
        · have := detection_loop_scans_nil pl ct r.update_tracks.potential_targets false hnil
            p (List.mem_of_mem_filter hp)
          rw [this]; simp
        · simp only [Radar.insert_new_potential_target, Radar.new_id_gen,
            List.mem_append, List.mem_singleton] at hp
          rcases hp with hp | hp
          · have := detection_loop_scans_nil pl ct r.update_tracks.potential_targets false hnil
              p (List.mem_of_mem_filter hp)
            rw [this]; simp
          · rw [hp]; simp
  · intro r p ct
    exact ⟨_, rfl, rfl⟩
  · intro t s hs
    exact update_scans_nil t (by rw [hs]; rfl)
  · intro t s hs
    exact update_scans_nil _ (by simp [RadarTrack.push_plot, hs])

/-- Witness for C10 at a concrete tracker: a fighter radar holding one track
with one queued scan satisfies the invariant, and still satisfies it after a
tick that delivers a plot inside the track's gate. -/
theorem c10_queue_bound_witness :
    QueuesBounded
      ({ fighterRadar with
         id_gen := 1
         potential_targets := [(0,
           { scans := [{ scan := { position := ⟨0, 0⟩, velocity := ⟨0, 0⟩ }, tick := 0 }],
             position := ⟨0, 0⟩, velocity := ⟨0, 0⟩, id := 0,
             classification := TrackType.Tentative, gate := RadarTrackGate.new ⟨0, 0⟩ 50,
             contact_tick := 0, filter := {} })] }.radar_loop 1
        (some { position := ⟨5, 5⟩, velocity := ⟨0, 0⟩ })) :=
  c10_queue_bound.1 _ 1 (some { position := ⟨5, 5⟩, velocity := ⟨0, 0⟩ }) (by decide)

/-- Concrete track for the C9 scenario: coasting at 60 m/s along x. -/
def c9Track : RadarTrack :=
  { scans := [], position := ⟨0, 0⟩, velocity := ⟨60, 0⟩, id := 0,
    classification := TrackType.Tentative, gate := RadarTrackGate.new ⟨0, 0⟩ 50,
    contact_tick := 0, filter := {} }

/-- Concrete plot for the C9 scenario, landing inside the coasted gate. -/
def c9Plot : ScanResult := { position := ⟨3 / 2, 0⟩, velocity := ⟨0, 0⟩ }

/-- Concrete tracker for the C9 scenario. -/
def c9Radar : Radar := { fighterRadar with id_gen := 1, potential_targets := [(0, c9Track)] }

/-- Counterexample to C9: in the tick that delivers `c9Plot`, track `0` claims
the plot and ends at position `(3/2, 0)` — the result of an `update_tracks`
coast update FOLLOWED by a second update after the push — whereas a single
application of the per-track update rule to the track that claims the plot
would end at position `(1/2, 0)`.  The claiming track is updated twice within
the tick, refuting "never updated a second time within the same tick". -/
theorem c9_double_update_counterexample :
    ((c9Radar.radar_loop 1 (some c9Plot)).potential_targets.lookup 0).map RadarTrack.position =
      some (((c9Track.update).push_plot { tick := 1, scan := c9Plot }).update).position ∧
    (((c9Track.update).push_plot { tick := 1, scan := c9Plot }).update).position = ⟨3 / 2, 0⟩ ∧
    ((c9Track.push_plot { tick := 1, scan := c9Plot }).update).position = ⟨1 / 2, 0⟩ ∧
    ((c9Radar.radar_loop 1 (some c9Plot)).potential_targets.lookup 0).map RadarTrack.position ≠
      some ((c9Track.push_plot { tick := 1, scan := c9Plot }).update).position := by
  refine ⟨?_, ?_, ?_, ?_⟩ <;>
    norm_num [c9Radar, c9Track, c9Plot, fighterRadar, Radar.radar_loop, Radar.update_tracks,
      Radar.add_detection_point, Radar.insert_new_potential_target, Radar.new_id_gen,
      detection_loop, RadarTrack.update, RadarTrack.push_plot, RadarTrack.check_gate,
      RadarTrackGate.point_in_gate, RadarTrackGate.update_center, RadarTrackGate.new,
      List.lookup, List.filter]

/-- C9 amended: on a tick with no plot, every live track is updated exactly
once (by `update_tracks`); on a tick whose plot is claimed, the claiming track
receives the `update_tracks` update and then, after the plot is pushed, a
second `update` within the same tick, while the remaining tracks are not
updated again. -/
theorem c9_update_amended :
    (∀ (r : Radar) (ct : ℕ),
        (r.radar_loop ct none).potential_targets =
          r.potential_targets.map (fun it => (it.1, it.2.update))) ∧
    (∀ (r : Radar) (ct : ℕ) (plot : ScanResult) (l1 l2 : List (ℕ × RadarTrack)) (id : ℕ)
        (t0 : RadarTrack),
        r.potential_targets = l1 ++ (id, t0) :: l2 →
        (∀ p ∈ l1, (p.2.update).check_gate plot.position = false) →
        (t0.update).check_gate plot.position = true →
        r.trackIds.Nodup →
        (id, ((t0.update).push_plot { tick := ct, scan := plot }).update) ∈
          (r.radar_loop ct (some plot)).potential_targets) := by
  constructor
  · intro r ct
    rfl
  · intro r ct plot l1 l2 id t0 hsplit hl1 ht0 hnodup
    have hmap : r.update_tracks.potential_targets =
        l1.map (fun it => (it.1, it.2.update)) ++
          (id, t0.update) :: l2.map (fun it => (it.1, it.2.update)) := by
      simp [Radar.update_tracks, hsplit]
    have hl1m : ∀ p ∈ l1.map (fun it => (it.1, it.2.update)),
        p.2.check_gate plot.position = false := by
      intro p hp
      simp only [List.mem_map] at hp
      obtain ⟨q, hq, rfl⟩ := hp
      exact hl1 q hq
    have hloop := detection_loop_first_match plot ct
      (l1.map (fun it => (it.1, it.2.update))) id t0.update
      (l2.map (fun it => (it.1, it.2.update))) hl1m ht0
    have hne : (l1.map (fun it => (it.1, it.2.update)) ++
        (id, t0.update) :: l2.map (fun it => (it.1, it.2.update))).isEmpty = false := by
      cases h : l1.map (fun it => (it.1, it.2.update)) <;> simp [h]
    have hid_not_l1 : id ∉ l1.map Prod.fst := by
      intro hin
      have hids : r.trackIds = l1.map Prod.fst ++ id :: l2.map Prod.fst := by
        simp [Radar.trackIds, hsplit]
      rw [hids] at hnodup
      obtain ⟨-, -, hdisj⟩ := List.nodup_append.mp hnodup
      exact hdisj hin (List.mem_cons_self _ _)
    have hid_not_old : id ∉
        ((l1.map (fun it => (it.1, it.2.update))).filter
          (fun it => decide (30 ≤ ct - it.2.contact_tick))).map Prod.fst := by
      intro hin
      apply hid_not_l1
      simp only [List.mem_map] at hin
      obtain ⟨q, hq, rfl⟩ := hin
      have hq2 : q ∈ l1.map (fun it => (it.1, it.2.update)) := List.mem_of_mem_filter hq
      simp only [List.mem_map] at hq2
      obtain ⟨w, hw, rfl⟩ := hq2
      exact List.mem_map.mpr ⟨w, hw, rfl⟩
    have hstep : (r.radar_loop ct (some plot)).potential_targets =
        (l1.map (fun it => (it.1, it.2.update)) ++
          (id, ((t0.update).push_plot { tick := ct, scan := plot }).update) ::
            l2.map (fun it => (it.1, it.2.update))).filter
          (fun it => !(((l1.map (fun it => (it.1, it.2.update))).filter
              (fun it => decide (30 ≤ ct - it.2.contact_tick))).map Prod.fst).contains it.1) := by
      simp only [Radar.radar_loop, Radar.add_detection_point, hmap, hne, hloop,
        Bool.false_eq_true, if_false, if_true]
    rw [hstep]
    refine List.mem_filter.mpr ⟨?_, ?_⟩
    · exact List.mem_append_right _ (List.mem_cons_self _ _)
    · simp only [Bool.not_eq_true']
      rw [← Bool.not_eq_true]
      intro hcon
      exact hid_not_old (List.elem_iff.mp hcon)

/-- Witness for C9 amended at the concrete C9 scenario (singleton tracker,
plot claimed by track `0`). -/
theorem c9_update_amended_witness :
    (0, ((c9Track.update).push_plot { tick := 1, scan := c9Plot }).update) ∈
      (c9Radar.radar_loop 1 (some c9Plot)).potential_targets :=
  c9_update_amended.2 c9Radar 1 c9Plot [] [] 0 c9Track rfl (by simp)
    (by norm_num [c9Track, c9Plot, RadarTrack.update, RadarTrack.check_gate,
      RadarTrackGate.point_in_gate, RadarTrackGate.update_center, RadarTrackGate.new])
    (by decide)

/-- With duplicate-free keys, two bindings of the same key are the same
track. -/
theorem keys_nodup_unique (l : List (ℕ × RadarTrack)) (h : (l.map Prod.fst).Nodup)
    (k : ℕ) (a b : RadarTrack) (ha : (k, a) ∈ l) (hb : (k, b) ∈ l) : a = b := by
  induction l with
  | nil => simp at ha
  | cons hd tl ih =>
    simp only [List.map_cons, List.nodup_cons] at h
    obtain ⟨hnotin, hnd⟩ := h
    rcases List.mem_cons.mp ha with ha1 | ha1
    · rcases List.mem_cons.mp hb with hb1 | hb1
      · have hab : (k, a) = (k, b) := ha1.trans hb1.symm
        exact ((Prod.mk.injEq _ _ _ _).mp hab).2
      · exfalso
        have hk : k ∈ List.map Prod.fst tl := List.mem_map.mpr ⟨(k, b), hb1, rfl⟩
        rw [← ha1] at hnotin
        exact hnotin hk
    · rcases List.mem_cons.mp hb with hb1 | hb1
      · exfalso
        have hk : k ∈ List.map Prod.fst tl := List.mem_map.mpr ⟨(k, a), ha1, rfl⟩
        rw [← hb1] at hnotin
        exact hnotin hk
      · exact ih hnd ha1 hb1

/-- `update_tracks` keeps the id column unchanged. -/
theorem update_tracks_ids (r : Radar) :
    r.update_tracks.potential_targets.map Prod.fst = r.potential_targets.map Prod.fst := by
  simp [Radar.update_tracks, List.map_map]

/-- C1 amended: the staleness clock runs from track creation and eviction is
lazy.  (i) Any track fewer than 30 ticks past its `contact_tick` survives any
tick, plot or not.  (ii) A tick with no plot never removes a track.  (iii)
When a plot arrives that no (coasted) track claims, every track at least 30
ticks past its `contact_tick` is removed.  (iv) Matching a plot never
refreshes `contact_tick` — it stays the creation tick forever. -/
theorem c1_staleness_amended :
    (∀ (r : Radar) (ct : ℕ) (plot : ScanResult) (id : ℕ) (t : RadarTrack),
        r.trackIds.Nodup →
        (id, t) ∈ r.potential_targets →
        ct - t.contact_tick < 30 →
        id ∈ (r.radar_loop ct (some plot)).trackIds) ∧
    (∀ (r : Radar) (ct : ℕ), (r.radar_loop ct none).trackIds = r.trackIds) ∧
    (∀ (r : Radar) (ct : ℕ) (plot : ScanResult) (id : ℕ) (t : RadarTrack),
        r.id_gen ∉ r.trackIds →
        (∀ p ∈ r.potential_targets, (p.2.update).check_gate plot.position = false) →
        (id, t) ∈ r.potential_targets →
        30 ≤ ct - t.contact_tick →
        id ∉ (r.radar_loop ct (some plot)).trackIds) ∧
    (∀ (t : RadarTrack) (s : TimedScanResult),
        ((t.push_plot s).update).contact_tick = t.contact_tick) := by
  refine ⟨?_, ?_, ?_, ?_⟩
  · intro r ct plot id t hnodup hmem hlt
    have hmem2 : (id, t.update) ∈ r.update_tracks.potential_targets :=
      List.mem_map.mpr ⟨(id, t), hmem, rfl⟩
    have hnodup2 : (r.update_tracks.potential_targets.map Prod.fst).Nodup := by
      rw [update_tracks_ids]; exact hnodup
    have hne : r.update_tracks.potential_targets.isEmpty = false := by
      cases h : r.update_tracks.potential_targets with
      | nil => rw [h] at hmem2; simp at hmem2
      | cons a l => rfl
    rcases hres : detection_loop plot ct r.update_tracks.potential_targets false with
      ⟨tracks1, old1, found1⟩
    have hid_not_old : id ∉ old1 := by
      intro hin
      have hin2 : id ∈ (detection_loop plot ct r.update_tracks.potential_targets false).2.1 := by
        rw [hres]
        exact hin
      obtain ⟨u, hu, h30u⟩ := detection_loop_old_mem plot ct _ false id hin2
      have : u = t.update := keys_nodup_unique _ hnodup2 id u t.update hu hmem2
      rw [this, update_contact_tick] at h30u
      omega
    have hcontains : old1.contains id = false := by
      rw [← Bool.not_eq_true]
      intro hc
      exact hid_not_old (List.elem_iff.mp hc)
    have hpair : ∃ X, (id, X) ∈ tracks1 := by
      rcases detection_loop_entry plot ct _ false id t.update hmem2 with hE | hE
      · exact ⟨t.update, by rw [hres] at hE; exact hE⟩
      · exact ⟨_, by rw [hres] at hE; exact hE⟩
    obtain ⟨X, hX⟩ := hpair
    have hX2 : (id, X) ∈ tracks1.filter (fun it => !old1.contains it.1) :=
      List.mem_filter.mpr ⟨hX, by show (!old1.contains id) = true; rw [hcontains]; rfl⟩
    simp only [Radar.radar_loop, Radar.add_detection_point, hne, Bool.false_eq_true, if_false,
      hres, Radar.trackIds]
    cases found1 with
    | true =>
      simp only [if_true]
      exact List.mem_map.mpr ⟨(id, X), hX2, rfl⟩
    | false =>
      simp only [Bool.false_eq_true, if_false, Radar.insert_new_potential_target,
        Radar.new_id_gen, List.map_append, List.mem_append]
      exact Or.inl (List.mem_map.mpr ⟨(id, X), hX2, rfl⟩)
  · intro r ct
    simp only [Radar.radar_loop, Radar.trackIds]
    exact update_tracks_ids r
  · intro r ct plot id t hfresh hmiss hmem h30
    have hmem2 : (id, t.update) ∈ r.update_tracks.potential_targets :=
      List.mem_map.mpr ⟨(id, t), hmem, rfl⟩
    have hne : r.update_tracks.potential_targets.isEmpty = false := by
      cases h : r.update_tracks.potential_targets with
      | nil => rw [h] at hmem2; simp at hmem2
      | cons a l => rfl
    have hmiss2 : ∀ p ∈ r.update_tracks.potential_targets,
        p.2.check_gate plot.position = false := by
      intro p hp
      simp only [Radar.update_tracks, List.mem_map] at hp
      obtain ⟨q, hq, rfl⟩ := hp
      exact hmiss q hq
    have hloop := detection_loop_nomatch plot ct r.update_tracks.potential_targets hmiss2
    have hid_in_old : id ∈
        (r.update_tracks.potential_targets.filter
          (fun it => decide (30 ≤ ct - it.2.contact_tick))).map Prod.fst := by
      refine List.mem_map.mpr ⟨(id, t.update), ?_, rfl⟩
      refine List.mem_filter.mpr ⟨hmem2, ?_⟩
      rw [update_contact_tick]
      simpa using h30
    have hid_ne_gen : id ≠ r.id_gen := by
      intro h
      apply hfresh
      rw [← h]
      exact List.mem_map.mpr ⟨(id, t), hmem, rfl⟩
    simp only [Radar.radar_loop, Radar.add_detection_point, hne, Bool.false_eq_true, if_false,
      hloop, Radar.trackIds, Radar.insert_new_potential_target, Radar.new_id_gen,
      List.map_append, List.mem_append]
    intro hcon
    rcases hcon with hcon | hcon
    · simp only [List.mem_map] at hcon
      obtain ⟨q, hq, rfl⟩ := hcon
      have hpred := (List.mem_filter.mp hq).2
      rw [Bool.not_eq_true'] at hpred
      have : q.1 ∈ (r.update_tracks.potential_targets.filter
          (fun it => decide (30 ≤ ct - it.2.contact_tick))).map Prod.fst := hid_in_old
      rw [← Bool.not_eq_true] at hpred
      exact hpred (List.elem_iff.mpr this)
    · have hgen : r.update_tracks.id_gen = r.id_gen := rfl
      simp only [List.map_cons, List.map_nil, List.mem_singleton] at hcon
      exact hid_ne_gen (by rw [hcon]; rfl)
  · intro t s
    rw [update_contact_tick, push_plot_contact_tick]

/-- A tick with no plot leaves the radar unchanged when `update` fixes every
track (e.g. zero-velocity tracks with drained queues). -/
theorem radar_loop_none_fix (r : Radar)
    (h : ∀ p ∈ r.potential_targets, p.2.update = p.2) (ct : ℕ) :
    r.radar_loop ct none = r := by
  show r.update_tracks = r
  have hmap : ∀ l : List (ℕ × RadarTrack), (∀ p ∈ l, p.2.update = p.2) →
      l.map (fun it => (it.1, it.2.update)) = l := by
    intro l hl
    induction l with
    | nil => rfl
    | cons a as ih =>
      simp only [List.map_cons]
      rw [hl a (List.mem_cons_self _ _), ih (fun p hp => hl p (List.mem_cons_of_mem _ hp))]
  show { r with potential_targets := r.potential_targets.map (fun it => (it.1, it.2.update)) } = r
  rw [hmap r.potential_targets h]

/-- Running any number of plotless ticks leaves such a radar unchanged. -/
theorem radar_run_replicate_none (r : Radar)
    (h : ∀ p ∈ r.potential_targets, p.2.update = p.2) (n ct : ℕ) :
    r.radar_run ct (List.replicate n (none : Option ScanResult)) = r := by
  induction n generalizing ct with
  | zero => rfl
  | succ k ih =>
    rw [List.replicate_succ]
    show (r.radar_loop ct none).radar_run (ct + 1) _ = r
    rw [radar_loop_none_fix r h]
    exact ih (ct + 1)

/-- Splitting a run of ticks. -/
theorem radar_run_append (r : Radar) (ct : ℕ) (a b : List (Option ScanResult)) :
    r.radar_run ct (a ++ b) = (r.radar_run ct a).radar_run (ct + a.length) b := by
  induction a generalizing r ct with
  | nil => simp [Radar.radar_run]
  | cons p ps ih =>
    show (r.radar_loop ct p).radar_run (ct + 1) (ps ++ b) = _
    rw [ih]
    congr 1
    simp
    omega

/-- Tick-0 plot of the C1 scenarios: a stationary contact at the origin. -/
def c1Plot0 : ScanResult := { position := ⟨0, 0⟩, velocity := ⟨0, 0⟩ }

/-- Tick-29 plot of C1 scenario A, inside the track's gate. -/
def c1PlotIn : ScanResult := { position := ⟨10, 10⟩, velocity := ⟨0, 0⟩ }

/-- Tick-30 plot of C1 scenario A, outside the track's gate. -/
def c1PlotOut : ScanResult := { position := ⟨1000, 1000⟩, velocity := ⟨0, 0⟩ }

/-- The track spawned from `c1Plot0` at tick 0. -/
def c1Track1 : RadarTrack :=
  { scans := [{ tick := 0, scan := c1Plot0 }], position := ⟨0, 0⟩, velocity := ⟨0, 0⟩,
    id := 0, classification := TrackType.Tentative, gate := RadarTrackGate.new ⟨0, 0⟩ 50,
    contact_tick := 0, filter := {} }

/-- The tracker right after tick 0. -/
def c1Radar1 : Radar := { fighterRadar with id_gen := 1, potential_targets := [(0, c1Track1)] }

/-- The same track with its queued scan consumed. -/
def c1Track2 : RadarTrack := { c1Track1 with scans := [] }

/-- The tracker's steady state while coasting. -/
def c1RadarB : Radar := { fighterRadar with id_gen := 1, potential_targets := [(0, c1Track2)] }

/-- The track spawned from `c1PlotOut` at tick 30 after track 0 is evicted. -/
def c1TrackNew : RadarTrack :=
  { scans := [{ tick := 30, scan := c1PlotOut }], position := ⟨1000, 1000⟩,
    velocity := ⟨0, 0⟩, id := 1, classification := TrackType.Tentative,
    gate := RadarTrackGate.new ⟨1000, 1000⟩ 50, contact_tick := 30, filter := {} }

/-- The tracker after tick 30 of C1 scenario A. -/
def c1RadarC : Radar := { fighterRadar with id_gen := 2, potential_targets := [(1, c1TrackNew)] }

/-- Tick 0: the first plot spawns track 0. -/
theorem c1_step0 : fighterRadar.radar_loop 0 (some c1Plot0) = c1Radar1 := by
  norm_num [Radar.radar_loop, Radar.update_tracks, Radar.add_detection_point,
    Radar.insert_new_potential_target, Radar.new_id_gen, fighterRadar, c1Radar1, c1Track1,
    c1Plot0]

/-- Consuming the single queued zero-velocity scan fixes the track state. -/
theorem c1_track1_update : c1Track1.update = c1Track2 := by
  norm_num [RadarTrack.update, c1Track1, c1Track2, c1Plot0, RadarTrackGate.update_center,
    RadarTrackGate.new]

/-- Coasting a drained zero-velocity track is the identity. -/
theorem c1_track2_update : c1Track2.update = c1Track2 := by
  norm_num [RadarTrack.update, c1Track1, c1Track2, c1Plot0, RadarTrackGate.update_center,
    RadarTrackGate.new]

/-- Tick 1: the queued scan is consumed. -/
theorem c1_step1 : c1Radar1.radar_loop 1 none = c1RadarB := by
  show c1Radar1.update_tracks = c1RadarB
  simp [Radar.update_tracks, c1Radar1, c1RadarB, c1_track1_update]

/-- All of `c1RadarB`'s tracks are fixed by `update`. -/
theorem c1_fixB : ∀ p ∈ c1RadarB.potential_targets, p.2.update = p.2 := by
  intro p hp
  simp only [c1RadarB, List.mem_singleton] at hp
  rw [hp]
  exact c1_track2_update

/-- `update_tracks` fixes `c1RadarB`. -/
theorem c1_updtB : c1RadarB.update_tracks = c1RadarB := by
  simp [Radar.update_tracks, c1RadarB, c1_track2_update]

/-- The coasted track's gate contains the tick-29 plot. -/
theorem c1_gateIn : c1Track2.check_gate c1PlotIn.position = true := by
  norm_num [c1Track2, c1Track1, c1PlotIn, RadarTrack.check_gate, RadarTrackGate.point_in_gate,
    RadarTrackGate.new]

/-- Consuming the claimed tick-29 plot returns the track to its steady
state (and leaves `contact_tick` at the creation tick 0). -/
theorem c1_updIn : ((c1Track2.push_plot { tick := 29, scan := c1PlotIn }).update) = c1Track2 := by
  norm_num [c1Track2, c1Track1, c1PlotIn, RadarTrack.push_plot, RadarTrack.update,
    RadarTrackGate.update_center, RadarTrackGate.new]

/-- Tick 29 of scenario A: the plot is claimed by track 0 and consumed. -/
theorem c1_step29 : c1RadarB.radar_loop 29 (some c1PlotIn) = c1RadarB := by
  show (c1RadarB.update_tracks).add_detection_point c1PlotIn 29 = c1RadarB
  rw [c1_updtB]
  have htgt : c1RadarB.potential_targets = [(0, c1Track2)] := rfl
  have hloop := detection_loop_first_match c1PlotIn 29 [] 0 c1Track2 [] (by simp) c1_gateIn
  simp only [List.nil_append, List.filter_nil, List.map_nil] at hloop
  simp [Radar.add_detection_point, htgt, hloop, c1_updIn, c1RadarB, fighterRadar]

/-- Track 0's gate misses the tick-30 plot. -/
theorem c1_gateOut : ∀ p ∈ c1RadarB.potential_targets,
    p.2.check_gate c1PlotOut.position = false := by
  intro p hp
  simp only [c1RadarB, List.mem_singleton] at hp
  rw [hp]
  norm_num [c1Track2, c1Track1, c1PlotOut, RadarTrack.check_gate, RadarTrackGate.point_in_gate,
    RadarTrackGate.new]

/-- Tick 30 of scenario A: the unclaimed plot triggers the staleness check,
track 0 (created at tick 0, last matched at tick 29) is evicted, and a fresh
track 1 is spawned from the plot. -/
theorem c1_step30 : c1RadarB.radar_loop 30 (some c1PlotOut) = c1RadarC := by
  show (c1RadarB.update_tracks).add_detection_point c1PlotOut 30 = c1RadarC
  rw [c1_updtB]
  have htgt : c1RadarB.potential_targets = [(0, c1Track2)] := rfl
  have hloop := detection_loop_nomatch c1PlotOut 30 [(0, c1Track2)]
    (by rw [← htgt]; exact c1_gateOut)
  have hold : (List.filter (fun it => decide (30 ≤ 30 - it.2.contact_tick))
      [(0, c1Track2)]).map Prod.fst = [0] := by
    norm_num [List.filter, show c1Track2.contact_tick = 0 from rfl]
  rw [hold] at hloop
  simp only [c1PlotOut, c1Track2, c1Track1, c1Plot0] at hloop htgt
  simp [Radar.add_detection_point, htgt, hloop, c1RadarB, c1RadarC, c1TrackNew, fighterRadar,
    Radar.insert_new_potential_target, Radar.new_id_gen, c1PlotOut, c1Track2, c1Track1, c1Plot0,
    List.filter]

/-- Counterexample to C1.  Scenario B (first two conjuncts): a track created
at tick 0 and never matched again is still present after 35 further plotless
ticks, with `contact_tick` still 0 — 35 ticks without contact, yet not
"removed exactly when its ticks-since-last-contact reaches 30" (eviction only
runs when a plot arrives).  Scenario A (last two conjuncts): the same track
claims a plot at tick 29 (its gate contains `c1PlotIn` that tick), so its
ticks-since-last-contact is 1 at tick 30; yet the unclaimed tick-30 plot
evicts it, because the staleness test compares against the never-refreshed
creation tick (the surviving tracker holds only the freshly spawned track 1). -/
theorem c1_staleness_counterexample :
    (fighterRadar.radar_run 0 (some c1Plot0 :: List.replicate 35 none)).trackIds = [0] ∧
    ((fighterRadar.radar_run 0
        (some c1Plot0 :: List.replicate 35 none)).potential_targets.lookup 0).map
      RadarTrack.contact_tick = some 0 ∧
    ((fighterRadar.radar_run 0
        ([some c1Plot0] ++ List.replicate 28 none)).update_tracks.potential_targets.lookup 0).map
      (fun u => u.check_gate c1PlotIn.position) = some true ∧
    (fighterRadar.radar_run 0
      (([some c1Plot0] ++ List.replicate 28 none) ++ [some c1PlotIn, some c1PlotOut])).trackIds
      = [1] := by
  have hB : fighterRadar.radar_run 0 (some c1Plot0 :: List.replicate 35 none) = c1RadarB := by
    have e1 : List.replicate 35 (none : Option ScanResult) = none :: List.replicate 34 none := rfl
    norm_num [Radar.radar_run, e1, c1_step0, c1_step1]
    exact radar_run_replicate_none c1RadarB c1_fixB 34 2
  have hA29 : fighterRadar.radar_run 0 ([some c1Plot0] ++ List.replicate 28 none) = c1RadarB := by
    have e1 : List.replicate 28 (none : Option ScanResult) = none :: List.replicate 27 none := rfl
    norm_num [Radar.radar_run, e1, c1_step0, c1_step1]
    exact radar_run_replicate_none c1RadarB c1_fixB 27 2
  have hA : fighterRadar.radar_run 0
      (([some c1Plot0] ++ List.replicate 28 none) ++ [some c1PlotIn, some c1PlotOut])
      = c1RadarC := by
    rw [radar_run_append, hA29]
    have e2 : ([some c1Plot0] ++ List.replicate 28 (none : Option ScanResult)).length = 29 := by
      simp
    rw [e2]
    norm_num [Radar.radar_run, c1_step29, c1_step30]
  refine ⟨?_, ?_, ?_, ?_⟩
  · rw [hB]; rfl
  · rw [hB]; rfl
  · rw [hA29, c1_updtB]
    have hlk : (c1RadarB.potential_targets.lookup 0) = some c1Track2 := rfl
    rw [hlk]
    simp [c1_gateIn]
  · rw [hA]; rfl

/-- Witness for C1 amended at a concrete tracker: the coasting track 0 of
`c1RadarB` is 5 ticks past its creation at tick 5, so it survives the tick
even though the arriving plot misses its gate. -/
theorem c1_staleness_amended_witness :
    0 ∈ (c1RadarB.radar_loop 5 (some c1PlotOut)).trackIds :=
  c1_staleness_amended.1 c1RadarB 5 c1PlotOut 0 c1Track2
    (by rw [show c1RadarB.trackIds = [0] from rfl]; exact List.nodup_singleton 0)
    (by rw [show c1RadarB.potential_targets = [(0, c1Track2)] from rfl]
        exact List.mem_singleton.mpr rfl)
    (by norm_num [show c1Track2.contact_tick = 0 from rfl])

/-- Square roots of squared rationals. -/
theorem sqrt_q_sq (a : ℚ) (h : 0 ≤ a) : Real.sqrt ((a * a : ℚ) : ℝ) = a := by
  push_cast
  rw [show ((a : ℝ) * a) = (a : ℝ) ^ 2 by ring]
  exact Real.sqrt_sq (by exact_mod_cast h)

/-- The `for`-loop of `Radar::get_closest_target_to_point` (src/ship.rs lines
583-596), with the two mutable loop variables `distance` and `target_id`
threaded as the accumulator pair. -/
noncomputable def closestFold (point : Vec2) :
    List (ℕ × RadarTrack) → ℝ × ℕ → ℝ × ℕ
  | [], acc => acc
  | (id, track) :: rest, (distance, target_id) =>
    let dist := track.distance_from point
    if dist < distance then closestFold point rest (dist, id)
    else closestFold point rest (distance, target_id)

/-- `Radar::get_closest_target_to_point` (src/ship.rs lines 583-596):
`distance` starts at `90_000_000.0` and `target_id` at `0`. -/
noncomputable def Radar.get_closest_target_to_point (r : Radar) (point : Vec2) : ℕ :=
  (closestFold point r.potential_targets (90000000, 0)).2

/-- The fold either keeps its accumulator or lands on some entry of the list,
never increases the best distance, and ends at most the distance of every
entry. -/
theorem closestFold_spec (point : Vec2) (l : List (ℕ × RadarTrack)) (acc : ℝ × ℕ) :
    (closestFold point l acc = acc ∨
      ∃ p ∈ l, closestFold point l acc = (p.2.distance_from point, p.1)) ∧
    (closestFold point l acc).1 ≤ acc.1 ∧
    ∀ p ∈ l, (closestFold point l acc).1 ≤ p.2.distance_from point := by
  induction l generalizing acc with
  | nil => exact ⟨Or.inl rfl, le_refl _, by simp⟩
  | cons hd tl ih =>
    obtain ⟨id, t⟩ := hd
    obtain ⟨d, i⟩ := acc
    by_cases hlt : t.distance_from point < d
    · have hih := ih (t.distance_from point, id)
      have hfold : closestFold point ((id, t) :: tl) (d, i) =
          closestFold point tl (t.distance_from point, id) := by
        simp [closestFold, hlt]
      refine ⟨?_, ?_, ?_⟩
      · rcases hih.1 with h | ⟨p, hp, hres⟩
        · exact Or.inr ⟨(id, t), List.mem_cons_self _ _, by rw [hfold, h]⟩
        · exact Or.inr ⟨p, List.mem_cons_of_mem _ hp, by rw [hfold, hres]⟩
      · rw [hfold]
        exact le_trans hih.2.1 (le_of_lt hlt)
      · intro p hp
        rcases List.mem_cons.mp hp with hp1 | hp1
        · rw [hfold, hp1]
          exact hih.2.1
        · rw [hfold]
          exact hih.2.2 p hp1
    · have hih := ih (d, i)
      have hfold : closestFold point ((id, t) :: tl) (d, i) =
          closestFold point tl (d, i) := by
        simp [closestFold, hlt]
      refine ⟨?_, ?_, ?_⟩
      · rcases hih.1 with h | ⟨p, hp, hres⟩
        · exact Or.inl (by rw [hfold, h])
        · exact Or.inr ⟨p, List.mem_cons_of_mem _ hp, by rw [hfold, hres]⟩
      · rw [hfold]
        exact hih.2.1
      · intro p hp
        rcases List.mem_cons.mp hp with hp1 | hp1
        · rw [hfold, hp1]
          exact le_trans hih.2.1 (not_lt.mp hlt)
        · rw [hfold]
          exact hih.2.2 p hp1

/-- Track sitting `10^8` m from the origin, beyond the fold's `9 * 10^7`
starting distance. -/
def c7Track : RadarTrack :=
  { scans := [], position := ⟨100000000, 0⟩, velocity := ⟨0, 0⟩, id := 7,
    classification := TrackType.Tentative, gate := RadarTrackGate.new ⟨100000000, 0⟩ 50,
    contact_tick := 0, filter := {} }

/-- Tracker holding only the faraway track, under id 7. -/
def c7Radar : Radar := { fighterRadar with id_gen := 8, potential_targets := [(7, c7Track)] }

/-- Counterexample to C7: the tracker holds exactly one track, with id 7, but
the nearest-target query returns `0` — the loop's initial `target_id`, which
is not the id of any held track (and is indistinguishable from a genuine
first track id, since `id_gen` starts at 0).  The query does not return the id
of a minimum-distance track, and "fails" only by yielding this default id. -/
theorem c7_nearest_counterexample :
    c7Radar.trackIds = [7] ∧ c7Radar.get_closest_target_to_point ⟨0, 0⟩ = 0 := by
  constructor
  · rfl
  · have hd : c7Track.distance_from ⟨0, 0⟩ = 100000000 := by
      rw [RadarTrack.distance_from, Vec2.length]
      have h1 : (((c7Track.position - ⟨0, 0⟩ : Vec2).x * (c7Track.position - ⟨0, 0⟩ : Vec2).x +
          (c7Track.position - ⟨0, 0⟩ : Vec2).y * (c7Track.position - ⟨0, 0⟩ : Vec2).y : ℚ)) =
          ((100000000 * 100000000 : ℚ)) := by
        norm_num [c7Track]
      rw [h1, sqrt_q_sq 100000000 (by norm_num)]
      norm_num
    rw [Radar.get_closest_target_to_point,
      show c7Radar.potential_targets = [(7, c7Track)] from rfl]
    simp only [closestFold, hd]
    rw [if_neg (by norm_num)]

/-- C7 amended: with an empty tracker the query returns the default id 0
rather than signalling failure; with at least one track strictly within the
`9 * 10^7` starting distance, it returns the id of a minimum-distance track
(tracks all at distance `≥ 9 * 10^7` are ignored in favor of the default 0). -/
theorem c7_nearest_amended :
    (∀ (r : Radar) (point : Vec2), r.potential_targets = [] →
        r.get_closest_target_to_point point = 0) ∧
    (∀ (r : Radar) (point : Vec2),
        (∃ p ∈ r.potential_targets, p.2.distance_from point < 90000000) →
        ∃ q ∈ r.potential_targets,
          r.get_closest_target_to_point point = q.1 ∧
          ∀ w ∈ r.potential_targets,
            q.2.distance_from point ≤ w.2.distance_from point) := by
  constructor
  · intro r point hempty
    rw [Radar.get_closest_target_to_point, hempty]
    rfl
  · intro r point hnear
    obtain ⟨p0, hp0, hd0⟩ := hnear
    have hspec := closestFold_spec point r.potential_targets (90000000, 0)
    have hlt : (closestFold point r.potential_targets (90000000, 0)).1 < 90000000 :=
      lt_of_le_of_lt (hspec.2.2 p0 hp0) hd0
    rcases hspec.1 with hacc | ⟨q, hq, hres⟩
    · rw [hacc] at hlt
      norm_num at hlt
    · refine ⟨q, hq, ?_, ?_⟩
      · rw [Radar.get_closest_target_to_point, hres]
      · intro w hw
        have := hspec.2.2 w hw
        rw [hres] at this
        exact this

/-- Near track for the C7 amended witness: 3-4-5 triangle from the origin. -/
def c7NearTrack : RadarTrack :=
  { scans := [], position := ⟨3, 4⟩, velocity := ⟨0, 0⟩, id := 7,
    classification := TrackType.Tentative, gate := RadarTrackGate.new ⟨3, 4⟩ 50,
    contact_tick := 0, filter := {} }

/-- Tracker holding only the near track. -/
def c7NearRadar : Radar :=
  { fighterRadar with id_gen := 8, potential_targets := [(7, c7NearTrack)] }

/-- Witness for C7 amended: with one track at distance 5 the query returns a
held minimum-distance id. -/
theorem c7_nearest_amended_witness :
    ∃ q ∈ c7NearRadar.potential_targets,
      c7NearRadar.get_closest_target_to_point ⟨0, 0⟩ = q.1 ∧
      ∀ w ∈ c7NearRadar.potential_targets,
        q.2.distance_from ⟨0, 0⟩ ≤ w.2.distance_from ⟨0, 0⟩ := by
  have hd : c7NearTrack.distance_from ⟨0, 0⟩ = 5 := by
    rw [RadarTrack.distance_from, Vec2.length]
    have h1 : (((c7NearTrack.position - ⟨0, 0⟩ : Vec2).x *
        (c7NearTrack.position - ⟨0, 0⟩ : Vec2).x +
        (c7NearTrack.position - ⟨0, 0⟩ : Vec2).y *
        (c7NearTrack.position - ⟨0, 0⟩ : Vec2).y : ℚ)) = ((5 * 5 : ℚ)) := by
      norm_num [c7NearTrack]
    rw [h1, sqrt_q_sq 5 (by norm_num)]
    norm_num
  exact c7_nearest_amended.2 c7NearRadar ⟨0, 0⟩
    ⟨(7, c7NearTrack), List.mem_singleton.mpr rfl, by rw [hd]; norm_num⟩

/-- `Fighter` (src/ship.rs lines 423-444).  `radio` and `rotation` are never
read or written by `Fighter::tick`, `ship_control` or the designation logic
(`snap_to_heading`, which writes `rotation`, is never called) and are omitted.
`target` is `Option<Rc<RefCell<RadarTrack>>>` in the source; ids are unique
and never reused, so the shared reference is modelled by the id of the track
it refers to. -/
structure Fighter where
  target_lock : Bool
  target : Option ℕ
  state : ShipState
  radar : Radar
  sticky_target_ticks : ℕ

/-- `Fighter::tick` (src/ship.rs lines 1081-1103).  `ship_control` only issues
actuation commands and reads the designation, so it does not appear in the
state transition.  The source's `match` on the state maps every state to
`Engaged` (the `Engaged` arm returns `()` with the state already `Engaged`,
every other arm calls `set_state(Engaged)`), modelled by setting the field
directly.  `position_fixed()` is the `shipPos` parameter.  The
`get_track(id)` call unwraps and can panic: `none` models the panic. -/
noncomputable def Fighter.fighter_tick (f : Fighter) (curTick : ℕ) (plot : Option ScanResult)
    (shipPos : Vec2) : Option Fighter :=
  let r1 := f.radar.radar_loop curTick plot
  let f1 := { f with radar := r1 }
  if r1.has_contacts then
    let f2 := { f1 with state := ShipState.Engaged }
    if 0 < f2.sticky_target_ticks then
      some { f2 with sticky_target_ticks := f2.sticky_target_ticks - 1 }
    else
      let id := r1.get_closest_target_to_point shipPos
      match r1.get_track id with
      | none => none
      | some _ =>
        some { f2 with sticky_target_ticks := STICKY_TARGET_TICKS, target := some id }
  else
    some f1

/-- The host driving the fighter for consecutive ticks, feeding each tick's
optional plot and ship position; `none` propagates a panic. -/
noncomputable def Fighter.fighter_run (f : Fighter) (curTick : ℕ) :
    List (Option ScanResult × Vec2) → Option Fighter
  | [] => some f
  | (plot, pos) :: rest =>
    match f.fighter_tick curTick plot pos with
    | none => none
    | some f2 => f2.fighter_run (curTick + 1) rest

/-- `Missile` (src/ship.rs lines 57-63); `target` modelled by the referenced
track's id as for `Fighter`.  `target_heading_delay_ticks` and
`acceleration_delay_ticks` are only used by commented-out code and carried
unchanged. -/
structure Missile where
  target : Option ℕ
  sticky_target_ticks : ℕ
  radar : Radar
  target_heading_delay_ticks : ℕ
  acceleration_delay_ticks : ℕ

/-- The designation-relevant state transition of `Missile::tick`
(src/ship.rs lines 83-152): radar loop; on contact, narrow the beam, pick
`id = 0` (decrementing the counter) or the nearest id (counter spent), then
re-designate when `still_tracking(id)`; the following
`self.target.as_ref().unwrap()` panics when no designation exists (`none`
models the panic).  `seek`, drawing and `explode` are host actuation.  With no
contact the beam is widened. -/
noncomputable def Missile.missile_tick (m : Missile) (curTick : ℕ) (plot : Option ScanResult)
    (shipPos : Vec2) : Option Missile :=
  let r1 := m.radar.radar_loop curTick plot
  if r1.has_contacts then
    let r2 := { r1 with beam := RadarBeam.Narrow }
    let pick : ℕ × ℕ :=
      if m.sticky_target_ticks ≤ 0 then
        (r2.get_closest_target_to_point shipPos, m.sticky_target_ticks)
      else
        (0, m.sticky_target_ticks - 1)
    let m1 := { m with radar := r2, sticky_target_ticks := pick.2 }
    let m2 := if r2.still_tracking pick.1 then { m1 with target := some pick.1 } else m1
    match m2.target with
    | none => none
    | some _ => some m2
  else
    some { m with radar := { r1 with beam := RadarBeam.Wide } }

/-- A missile tick with a positive sticky counter either keeps the
designation or re-designates track 0. -/
theorem missile_tick_target_cases (m : Missile) (curTick : ℕ) (plot : Option ScanResult)
    (shipPos : Vec2) (m2 : Missile) (hpos : 0 < m.sticky_target_ticks)
    (htick : m.missile_tick curTick plot shipPos = some m2) :
    m2.target = m.target ∨ m2.target = some 0 := by
  rw [Missile.missile_tick] at htick
  split_ifs at htick with h1 h2
  · omega
  · dsimp only at htick
    split_ifs at htick with h3
    · right
      simp only [Option.some.injEq] at htick
      rw [← htick]
    · cases hm : m.target with
      | none =>
        rw [hm] at htick
        simp at htick
      | some a =>
        rw [hm] at htick
        simp only [Option.some.injEq] at htick
        left
        rw [← htick]
  · left
    injection htick with h
    rw [← h]

/-- C8: while the sticky-tick counter is positive the designation is held.
Fighter (first conjunct): over any run of at most `sticky_target_ticks` ticks,
whatever plots arrive and however the tracks move (in particular if a strictly
closer track appears), the designated target is unchanged and no panic occurs.
Fighter (second conjunct): when the counter has reached zero and contacts
exist, the replacement designates the nearest-target query's result and resets
the counter to the full `STICKY_TARGET_TICKS` window.  Missile (third and
fourth conjuncts): in every state reachable from `Missile::new` the
designation during the sticky window is `none` or track 0, and under that
invariant a designated target is unchanged by a tick with a positive counter;
the invariant itself is preserved by such ticks. -/
theorem c8_hysteresis_hold :
    (∀ (inputs : List (Option ScanResult × Vec2)) (f : Fighter) (curTick : ℕ),
        inputs.length ≤ f.sticky_target_ticks →
        ∃ f2, f.fighter_run curTick inputs = some f2 ∧
          f2.target = f.target ∧
          f.sticky_target_ticks - inputs.length ≤ f2.sticky_target_ticks) ∧
    (∀ (f : Fighter) (curTick : ℕ) (plot : Option ScanResult) (shipPos : Vec2) (f2 : Fighter),
        f.sticky_target_ticks = 0 →
        f.fighter_tick curTick plot shipPos = some f2 →
        (f.radar.radar_loop curTick plot).has_contacts = true →
        f2.sticky_target_ticks = STICKY_TARGET_TICKS ∧
        f2.target =
          some ((f.radar.radar_loop curTick plot).get_closest_target_to_point shipPos)) ∧
    (∀ (m : Missile) (curTick : ℕ) (plot : Option ScanResult) (shipPos : Vec2) (A : ℕ)
        (m2 : Missile),
        0 < m.sticky_target_ticks →
        m.target = some A →
        (m.target = none ∨ m.target = some 0) →
        m.missile_tick curTick plot shipPos = some m2 →
        m2.target = some A) ∧
    (∀ (m : Missile) (curTick : ℕ) (plot : Option ScanResult) (shipPos : Vec2) (m2 : Missile),
        0 < m.sticky_target_ticks →
        (m.target = none ∨ m.target = some 0) →
        m.missile_tick curTick plot shipPos = some m2 →
        (m2.target = none ∨ m2.target = some 0)) := by
  refine ⟨?_, ?_, ?_, ?_⟩
  · intro inputs
    induction inputs with
    | nil =>
      intro f curTick hlen
      exact ⟨f, rfl, rfl, by omega⟩
    | cons hd rest ih =>
      obtain ⟨plot, pos⟩ := hd
      intro f curTick hlen
      rw [List.length_cons] at hlen
      have hpos : 0 < f.sticky_target_ticks := by omega
      cases hc : (f.radar.radar_loop curTick plot).has_contacts with
      | true =>
        have htick : f.fighter_tick curTick plot pos =
            some { f with
              radar := f.radar.radar_loop curTick plot
              state := ShipState.Engaged
              sticky_target_ticks := f.sticky_target_ticks - 1 } := by
          simp only [Fighter.fighter_tick, hc, if_true, if_pos hpos]
        obtain ⟨f3, hrun, htgt, hstk⟩ := ih
          { f with
            radar := f.radar.radar_loop curTick plot
            state := ShipState.Engaged
            sticky_target_ticks := f.sticky_target_ticks - 1 }
          (curTick + 1) (by simp; omega)
        refine ⟨f3, ?_, htgt, by simp only [List.length_cons]; simp at hstk; omega⟩
        show (match f.fighter_tick curTick plot pos with
          | none => none
          | some f2 => f2.fighter_run (curTick + 1) rest) = some f3
        rw [htick]
        exact hrun
      | false =>
        have htick : f.fighter_tick curTick plot pos =
            some { f with radar := f.radar.radar_loop curTick plot } := by
          simp only [Fighter.fighter_tick, hc, Bool.false_eq_true, if_false]
        obtain ⟨f3, hrun, htgt, hstk⟩ := ih
          { f with radar := f.radar.radar_loop curTick plot }
          (curTick + 1) (by simp; omega)
        refine ⟨f3, ?_, htgt, by simp only [List.length_cons]; simp at hstk; omega⟩
        show (match f.fighter_tick curTick plot pos with
          | none => none
          | some f2 => f2.fighter_run (curTick + 1) rest) = some f3
        rw [htick]
        exact hrun
  · intro f curTick plot shipPos f2 hzero htick hc
    rw [Fighter.fighter_tick] at htick
    simp only [hc, if_true, hzero] at htick
    rw [if_neg (by omega)] at htick
    cases hg : ((f.radar.radar_loop curTick plot).get_track
        ((f.radar.radar_loop curTick plot).get_closest_target_to_point shipPos)) with
    | none => rw [hg] at htick; simp at htick
    | some tr =>
      rw [hg] at htick
      simp only [Option.some.injEq] at htick
      rw [← htick]
      exact ⟨rfl, rfl⟩
  · intro m curTick plot shipPos A m2 hpos htgt hinv htick
    have hA : A = 0 := by
      rcases hinv with h | h
      · rw [htgt] at h; cases h
      · rw [htgt] at h; injection h
    subst hA
    rcases missile_tick_target_cases m curTick plot shipPos m2 hpos htick with h | h
    · rw [h, htgt]
    · rw [h]
  · intro m curTick plot shipPos m2 hpos hinv htick
    rcases missile_tick_target_cases m curTick plot shipPos m2 hpos htick with h | h
    · rw [h]; exact hinv
    · rw [h]; exact Or.inr rfl

/-- Concrete fighter for the C8 witness: designation id 5, counter 2. -/
noncomputable def c8Fighter : Fighter :=
  { target_lock := true, target := some 5, state := ShipState.Engaged,
    radar := c1RadarB, sticky_target_ticks := 2 }

/-- Witness for C8: over two ticks (one with a plot, one without) the
designation of `c8Fighter` is still id 5 and no panic occurs. -/
theorem c8_hysteresis_hold_witness :
    ∃ f2, c8Fighter.fighter_run 0 [(some c1PlotOut, ⟨0, 0⟩), (none, ⟨0, 0⟩)] = some f2 ∧
      f2.target = c8Fighter.target ∧
      c8Fighter.sticky_target_ticks - 2 ≤ f2.sticky_target_ticks := by
  have h := c8_hysteresis_hold.1 [(some c1PlotOut, ⟨0, 0⟩), (none, ⟨0, 0⟩)] c8Fighter 0
    (by rw [show c8Fighter.sticky_target_ticks = 2 from rfl]; simp)
  simpa using h

/-- 2-D vector over `ℝ` for the intercept-solver side of the code, where
values pass through `sqrt`. -/
structure Vec2R where
  x : ℝ
  y : ℝ

noncomputable instance : Add Vec2R := ⟨fun a b => ⟨a.x + b.x, a.y + b.y⟩⟩

noncomputable instance : Sub Vec2R := ⟨fun a b => ⟨a.x - b.x, a.y - b.y⟩⟩

noncomputable instance : HMul ℝ Vec2R Vec2R := ⟨fun c v => ⟨c * v.x, c * v.y⟩⟩

noncomputable instance : HMul Vec2R ℝ Vec2R := ⟨fun v c => ⟨v.x * c, v.y * c⟩⟩

noncomputable instance : HDiv Vec2R ℝ Vec2R := ⟨fun v c => ⟨v.x / c, v.y / c⟩⟩

@[simp] theorem Vec2R.add_eq (a b : Vec2R) : a + b = ⟨a.x + b.x, a.y + b.y⟩ := rfl

@[simp] theorem Vec2R.sub_eq (a b : Vec2R) : a - b = ⟨a.x - b.x, a.y - b.y⟩ := rfl

@[simp] theorem Vec2R.div_eq (v : Vec2R) (c : ℝ) : v / c = ⟨v.x / c, v.y / c⟩ := rfl

@[simp] theorem Vec2R.smul_eq (v : Vec2R) (c : ℝ) : v * c = ⟨v.x * c, v.y * c⟩ := rfl

@[simp] theorem Vec2R.smul_left_eq (c : ℝ) (v : Vec2R) : c * v = ⟨c * v.x, c * v.y⟩ := rfl

/-- `Vec2::dot`. -/
def Vec2R.dot (a b : Vec2R) : ℝ := a.x * b.x + a.y * b.y

/-- `Vec2::length()`. -/
noncomputable def Vec2R.length (v : Vec2R) : ℝ := Real.sqrt (v.x * v.x + v.y * v.y)

/-- `get_smallest_quadratic_solution` — identical duplicates at
src/ship.rs lines 1165-1186 and src/tutorial.rs lines 159-180, modelled once:
`-1` is the failure sentinel, `discriminant.sqrt()` is `Real.sqrt`, and only
strictly positive solutions are returned. -/
noncomputable def get_smallest_quadratic_solution (a b c : ℝ) : ℝ :=
  let discriminant : ℝ := b * b - 4 * a * c
  if discriminant < 0 then -1
  else
    let s : ℝ := Real.sqrt discriminant
    let x2 : ℝ := (-b + s) / (2 * a)
    let x1 : ℝ := (-b - s) / (2 * a)
    if x2 > 0 ∧ x1 > 0 then min x2 x1
    else if x1 > 0 then x1
    else if x2 > 0 then x2
    else -1

/-- Negative discriminant: the sentinel is returned. -/
theorem gsqs_neg_disc (a b c : ℝ) (h : b * b - 4 * a * c < 0) :
    get_smallest_quadratic_solution a b c = -1 := by
  simp only [get_smallest_quadratic_solution]
  rw [if_pos h]

/-- Both computed solutions strictly positive: their minimum is returned. -/
theorem gsqs_both_pos (a b c : ℝ) (hd : 0 ≤ b * b - 4 * a * c)
    (h1 : 0 < (-b - Real.sqrt (b * b - 4 * a * c)) / (2 * a))
    (h2 : 0 < (-b + Real.sqrt (b * b - 4 * a * c)) / (2 * a)) :
    get_smallest_quadratic_solution a b c =
      min ((-b - Real.sqrt (b * b - 4 * a * c)) / (2 * a))
        ((-b + Real.sqrt (b * b - 4 * a * c)) / (2 * a)) := by
  simp only [get_smallest_quadratic_solution]
  rw [if_neg (not_lt.mpr hd), if_pos ⟨h2, h1⟩]
  exact min_comm _ _

/-- Only `x1` strictly positive: it is returned. -/
theorem gsqs_only_x1 (a b c : ℝ) (hd : 0 ≤ b * b - 4 * a * c)
    (h1 : 0 < (-b - Real.sqrt (b * b - 4 * a * c)) / (2 * a))
    (h2 : (-b + Real.sqrt (b * b - 4 * a * c)) / (2 * a) ≤ 0) :
    get_smallest_quadratic_solution a b c =
      (-b - Real.sqrt (b * b - 4 * a * c)) / (2 * a) := by
  simp only [get_smallest_quadratic_solution]
  rw [if_neg (not_lt.mpr hd), if_neg (by intro hcon; exact absurd hcon.1 (not_lt.mpr h2)),
    if_pos h1]

/-- Only `x2` strictly positive: it is returned. -/
theorem gsqs_only_x2 (a b c : ℝ) (hd : 0 ≤ b * b - 4 * a * c)
    (h1 : (-b - Real.sqrt (b * b - 4 * a * c)) / (2 * a) ≤ 0)
    (h2 : 0 < (-b + Real.sqrt (b * b - 4 * a * c)) / (2 * a)) :
    get_smallest_quadratic_solution a b c =
      (-b + Real.sqrt (b * b - 4 * a * c)) / (2 * a) := by
  simp only [get_smallest_quadratic_solution]
  rw [if_neg (not_lt.mpr hd), if_neg (by intro hcon; exact absurd hcon.2 (not_lt.mpr h1)),
    if_neg (not_lt.mpr h1), if_pos h2]

/-- No strictly positive solution: the sentinel is returned. -/
theorem gsqs_no_pos (a b c : ℝ) (hd : 0 ≤ b * b - 4 * a * c)
    (h1 : (-b - Real.sqrt (b * b - 4 * a * c)) / (2 * a) ≤ 0)
    (h2 : (-b + Real.sqrt (b * b - 4 * a * c)) / (2 * a) ≤ 0) :
    get_smallest_quadratic_solution a b c = -1 := by
  simp only [get_smallest_quadratic_solution]
  rw [if_neg (not_lt.mpr hd), if_neg (by intro hcon; exact absurd hcon.1 (not_lt.mpr h2)),
    if_neg (not_lt.mpr h1), if_neg (not_lt.mpr h2)]

/-- The solver never returns a value that is both positive and not a root:
on failure it returns `-1 ≤ 0`, used by `quadratic_lead`'s `t <= 0` test. -/
theorem gsqs_fail_of_fail (a b c : ℝ)
    (hfail : b * b - 4 * a * c < 0 ∨
      (0 ≤ b * b - 4 * a * c ∧
        (-b - Real.sqrt (b * b - 4 * a * c)) / (2 * a) ≤ 0 ∧
        (-b + Real.sqrt (b * b - 4 * a * c)) / (2 * a) ≤ 0)) :
    get_smallest_quadratic_solution a b c = -1 := by
  rcases hfail with h | ⟨hd, h1, h2⟩
  · exact gsqs_neg_disc a b c h
  · exact gsqs_no_pos a b c hd h1 h2

/-- C3: the root policy of `get_smallest_quadratic_solution` on the intercept
inputs `a = v·v - s²`, `b = 2(p·v)`, `c = p·p`.  A negative discriminant
yields the failure sentinel `-1`; two strictly positive roots yield the
smaller; exactly one strictly positive root yields that root; no strictly
positive root yields the sentinel.  (`r1`, `r2` really are the roots of the
quadratic whenever `a ≠ 0` and the discriminant is nonnegative.) -/
theorem c3_root_policy (p v : Vec2R) (s a b c d r1 r2 : ℝ)
    (ha : a = v.dot v - s * s)
    (hb : b = 2 * (p.dot v))
    (hc : c = p.dot p)
    (hd : d = b * b - 4 * a * c)
    (hr1 : r1 = (-b - Real.sqrt d) / (2 * a))
    (hr2 : r2 = (-b + Real.sqrt d) / (2 * a)) :
    (d < 0 → get_smallest_quadratic_solution a b c = -1) ∧
    (0 ≤ d → 0 < r1 → 0 < r2 → get_smallest_quadratic_solution a b c = min r1 r2) ∧
    (0 ≤ d → 0 < r1 → r2 ≤ 0 → get_smallest_quadratic_solution a b c = r1) ∧
    (0 ≤ d → r1 ≤ 0 → 0 < r2 → get_smallest_quadratic_solution a b c = r2) ∧
    (0 ≤ d → r1 ≤ 0 → r2 ≤ 0 → get_smallest_quadratic_solution a b c = -1) ∧
    (a ≠ 0 → 0 ≤ d → a * r1 ^ 2 + b * r1 + c = 0 ∧ a * r2 ^ 2 + b * r2 + c = 0) := by
  subst hd
  refine ⟨?_, ?_, ?_, ?_, ?_, ?_⟩
  · intro h
    exact gsqs_neg_disc a b c h
  · intro h h1 h2
    rw [hr1, hr2]
    exact gsqs_both_pos a b c h (hr1 ▸ h1) (hr2 ▸ h2)
  · intro h h1 h2
    rw [hr1]
    exact gsqs_only_x1 a b c h (hr1 ▸ h1) (hr2 ▸ h2)
  · intro h h1 h2
    rw [hr2]
    exact gsqs_only_x2 a b c h (hr1 ▸ h1) (hr2 ▸ h2)
  · intro h h1 h2
    exact gsqs_no_pos a b c h (hr1 ▸ h1) (hr2 ▸ h2)
  · intro hA h
    have hs : Real.sqrt (b * b - 4 * a * c) ^ 2 = b * b - 4 * a * c := Real.sq_sqrt h
    constructor
    · rw [hr1]
      field_simp
      nlinarith [hs]
    · rw [hr2]
      field_simp
      nlinarith [hs]

/-- Witness for C3 at concrete inputs `p = (1,0)`, `v = (-3,0)`, `s = 1`
(`a = 8`, `b = -6`, `c = 1`, discriminant `4`): both roots `1/4 < 1/2` are
strictly positive and the smaller, `1/4`, is returned. -/
theorem c3_root_policy_witness : get_smallest_quadratic_solution 8 (-6) 1 = 1 / 4 := by
  have hs : Real.sqrt ((-6 : ℝ) * (-6) - 4 * 8 * 1) = 2 := by
    rw [show ((-6 : ℝ) * (-6) - 4 * 8 * 1) = 2 ^ 2 by norm_num]
    exact Real.sqrt_sq (by norm_num)
  have h := (c3_root_policy ⟨1, 0⟩ ⟨-3, 0⟩ 1 8 (-6) 1 ((-6 : ℝ) * (-6) - 4 * 8 * 1)
      ((-(-6 : ℝ) - Real.sqrt ((-6 : ℝ) * (-6) - 4 * 8 * 1)) / (2 * 8))
      ((-(-6 : ℝ) + Real.sqrt ((-6 : ℝ) * (-6) - 4 * 8 * 1)) / (2 * 8))
      (by norm_num [Vec2R.dot]) (by norm_num [Vec2R.dot]) (by norm_num [Vec2R.dot])
      rfl rfl rfl).2.1
  rw [h (by norm_num) (by rw [hs]; norm_num) (by rw [hs]; norm_num), hs]
  rw [show (-(-6 : ℝ) - 2) / (2 * 8) = 1 / 4 by norm_num,
    show (-(-6 : ℝ) + 2) / (2 * 8) = 1 / 2 by norm_num]
  rw [min_eq_left (by norm_num)]

/-- `get_target_lead_in_ticks` (src/ship.rs lines 1157-1161): first-order
per-tick linear lead.  `position_fixed()` and `velocity()` are the `posFixed`
and `shipVel` parameters. -/
noncomputable def get_target_lead_in_ticks (posFixed shipVel targetPos targetVel : Vec2R) :
    Vec2R :=
  let delta_position := targetPos - posFixed
  let delta_velocity := (targetVel - shipVel) / (60 : ℝ)
  delta_position +
    delta_velocity * delta_position.length / ((⌈BULLET_SPEED / (60 : ℝ)⌉ : ℤ) : ℝ)

/-- `quadratic_lead` (src/ship.rs lines 1191-1202): on solver failure
(`t <= 0`) fall back to `get_target_lead_in_ticks`. -/
noncomputable def quadratic_lead (posFixed shipVel targetPos targetVel : Vec2R) : Vec2R :=
  let a : ℝ := targetVel.dot targetVel - BULLET_SPEED * BULLET_SPEED
  let b : ℝ := 2 * targetPos.dot targetVel
  let c : ℝ := targetPos.dot targetPos
  let t : ℝ := get_smallest_quadratic_solution a b c
  if t ≤ 0 then get_target_lead_in_ticks posFixed shipVel targetPos targetVel
  else targetPos + t * targetVel

namespace Tutorial

/-- `quadratic_lead` (src/tutorial.rs lines 184-194): same solver inputs, but
on failure it returns `position()` — the ship's own current position, passed
as the `position` parameter. -/
noncomputable def quadratic_lead (position targetPos targetVel : Vec2R) : Vec2R :=
  let a : ℝ := targetVel.dot targetVel - BULLET_SPEED * BULLET_SPEED
  let b : ℝ := 2 * targetPos.dot targetVel
  let c : ℝ := targetPos.dot targetPos
  let t : ℝ := get_smallest_quadratic_solution a b c
  if t ≤ 0 then position
  else targetPos + t * targetVel

end Tutorial

/-- `ceil(BULLET_SPEED / 60) = ceil(16.67) = 17`. -/
theorem bullet_ticks_ceil : ((⌈BULLET_SPEED / (60 : ℝ)⌉ : ℤ) : ℝ) = 17 := by
  have h : ⌈BULLET_SPEED / (60 : ℝ)⌉ = (17 : ℤ) := by
    rw [Int.ceil_eq_iff]
    norm_num [BULLET_SPEED]
  rw [h]
  norm_num

/-- Lengths are nonnegative. -/
theorem Vec2R.length_nonneg (v : Vec2R) : 0 ≤ v.length := Real.sqrt_nonneg _

/-- C5 amended: whenever the closed-form solver fails (negative discriminant,
or no strictly positive root), ship.rs's `quadratic_lead` falls back to the
first-order per-tick linear lead `p + v_per_tick * |p| / ceil(s_per_tick)`
(`= 17` for bullet speed 1000 at 60 ticks/s) — not the target's current
position — while tutorial.rs's `quadratic_lead` instead returns the ship's
own current position; both are total functions, so neither path panics. -/
theorem c5_fallback_amended (posFixed shipVel position targetPos targetVel : Vec2R)
    (a b c : ℝ)
    (ha : a = targetVel.dot targetVel - BULLET_SPEED * BULLET_SPEED)
    (hb : b = 2 * targetPos.dot targetVel)
    (hc : c = targetPos.dot targetPos)
    (hfail : b * b - 4 * a * c < 0 ∨
      (0 ≤ b * b - 4 * a * c ∧
        (-b - Real.sqrt (b * b - 4 * a * c)) / (2 * a) ≤ 0 ∧
        (-b + Real.sqrt (b * b - 4 * a * c)) / (2 * a) ≤ 0)) :
    quadratic_lead posFixed shipVel targetPos targetVel =
      get_target_lead_in_ticks posFixed shipVel targetPos targetVel ∧
    get_target_lead_in_ticks posFixed shipVel targetPos targetVel =
      (targetPos - posFixed) +
        ((targetVel - shipVel) / (60 : ℝ)) * (targetPos - posFixed).length / (17 : ℝ) ∧
    Tutorial.quadratic_lead position targetPos targetVel = position := by
  have hgs : get_smallest_quadratic_solution a b c = -1 := gsqs_fail_of_fail a b c hfail
  refine ⟨?_, ?_, ?_⟩
  · simp only [quadratic_lead]
    rw [← ha, ← hb, ← hc, hgs, if_pos (by norm_num : (-1 : ℝ) ≤ 0)]
  · simp only [get_target_lead_in_ticks, bullet_ticks_ceil]
  · simp only [Tutorial.quadratic_lead]
    rw [← ha, ← hb, ← hc, hgs, if_pos (by norm_num : (-1 : ℝ) ≤ 0)]

/-- Counterexample to C5: with target position `(1000, 0)` and target
velocity `(2000, 0)` the target outruns the bullet along the line of sight,
the discriminant is `4 * 10^12` with both roots negative, and the solver
fails; tutorial.rs's `quadratic_lead` then returns the ship's own position
`(5, 7)` — not the claimed first-order linear lead (whose x-component is at
least `995`). -/
theorem c5_fallback_counterexample :
    Tutorial.quadratic_lead ⟨5, 7⟩ ⟨1000, 0⟩ ⟨2000, 0⟩ = ⟨5, 7⟩ ∧
    Tutorial.quadratic_lead ⟨5, 7⟩ ⟨1000, 0⟩ ⟨2000, 0⟩ ≠
      get_target_lead_in_ticks ⟨5, 7⟩ ⟨0, 0⟩ ⟨1000, 0⟩ ⟨2000, 0⟩ := by
  have hs : Real.sqrt ((4000000 : ℝ) * 4000000 - 4 * 3000000 * 1000000) = 2000000 := by
    rw [show ((4000000 : ℝ) * 4000000 - 4 * 3000000 * 1000000) = 2000000 ^ 2 by norm_num]
    exact Real.sqrt_sq (by norm_num)
  have hgs : get_smallest_quadratic_solution 3000000 4000000 1000000 = -1 := by
    refine gsqs_no_pos _ _ _ (by norm_num) ?_ ?_
    · rw [hs]; norm_num
    · rw [hs]; norm_num
  have h1 : Tutorial.quadratic_lead ⟨5, 7⟩ ⟨1000, 0⟩ ⟨2000, 0⟩ = ⟨5, 7⟩ := by
    simp only [Tutorial.quadratic_lead]
    rw [show ((⟨2000, 0⟩ : Vec2R).dot ⟨2000, 0⟩ - BULLET_SPEED * BULLET_SPEED) = (3000000 : ℝ)
        from by norm_num [Vec2R.dot, BULLET_SPEED],
      show (2 * (⟨1000, 0⟩ : Vec2R).dot ⟨2000, 0⟩) = (4000000 : ℝ)
        from by norm_num [Vec2R.dot],
      show ((⟨1000, 0⟩ : Vec2R).dot ⟨1000, 0⟩) = (1000000 : ℝ)
        from by norm_num [Vec2R.dot],
      hgs, if_pos (by norm_num : (-1 : ℝ) ≤ 0)]
  refine ⟨h1, ?_⟩
  rw [h1]
  intro hcon
  simp only [get_target_lead_in_ticks, bullet_ticks_ceil, Vec2R.sub_eq, Vec2R.div_eq,
    Vec2R.smul_eq, Vec2R.add_eq, Vec2R.mk.injEq] at hcon
  have hx := hcon.1
  norm_num at hx
  nlinarith [Vec2R.length_nonneg (⟨1000 - 5, 0 - 7⟩ : Vec2R), hx]

/-- Witness for C5 amended at the counterexample inputs: the solver fails and
both fallbacks are as characterized. -/
theorem c5_fallback_amended_witness :
    quadratic_lead ⟨5, 7⟩ ⟨0, 0⟩ ⟨1000, 0⟩ ⟨2000, 0⟩ =
      get_target_lead_in_ticks ⟨5, 7⟩ ⟨0, 0⟩ ⟨1000, 0⟩ ⟨2000, 0⟩ ∧
    Tutorial.quadratic_lead ⟨5, 7⟩ ⟨1000, 0⟩ ⟨2000, 0⟩ = (⟨5, 7⟩ : Vec2R) := by
  have hs : Real.sqrt ((4000000 : ℝ) * 4000000 - 4 * 3000000 * 1000000) = 2000000 := by
    rw [show ((4000000 : ℝ) * 4000000 - 4 * 3000000 * 1000000) = 2000000 ^ 2 by norm_num]
    exact Real.sqrt_sq (by norm_num)
  have h := c5_fallback_amended ⟨5, 7⟩ ⟨0, 0⟩ ⟨5, 7⟩ ⟨1000, 0⟩ ⟨2000, 0⟩
    3000000 4000000 1000000
    (by norm_num [Vec2R.dot, BULLET_SPEED]) (by norm_num [Vec2R.dot])
    (by norm_num [Vec2R.dot])
    (Or.inr ⟨by norm_num, by rw [hs]; norm_num, by rw [hs]; norm_num⟩)
  exact ⟨h.1, h.2.2⟩
